import Mathlib

/-!
Verification development for the GenMotionPhoto repository
(`GenMotionPhoto.py`, `GenUltraHDRPhoto.py`, `GenUltraHdrMotionPhoto.py`).

The three pipelines assemble container JPEG files: a primary image carrying an
XMP metadata descriptor, followed by appended binary segments (a gain-map image
and/or a video clip).  We model:

  * file contents as lists of byte values (`Bytes`),
  * the filesystem as an association list from path strings to contents plus a
    list of created directories (`FS`),
  * the external `exiftool` subprocess as an abstract `Injector`: a function
    from (current image content, descriptor content) to a process result
    (exit code, captured error text, and the image content after the run),
  * paths as plain strings; `os.path.abspath` is modelled as the identity
    (inputs are taken to be absolute, normalized paths), and
    `tempfile.TemporaryDirectory()` is modelled by an explicit `tmp_dir`
    parameter whose freshness (no pre-existing file lies under it) is the
    guarantee `mkdtemp` provides and appears as a hypothesis where needed.

Python float parameters are only ever interpolated into the XMP template with
`str(...)`; the model therefore carries them in already-serialized decimal form
(`String`), with the defaults `str(0.0) = "0.0"` etc.
-/

/-- Byte sequences: file contents are lists of byte values. -/
abbrev Bytes := List Nat

/-- UTF-8-agnostic encoding of a descriptor string as file bytes
(the templates are ASCII, so one char = one byte). -/
def strBytes (s : String) : Bytes := s.data.map Char.toNat

/-- `os.path.basename` for POSIX paths: the part after the last slash. -/
def basename (p : String) : String :=
  ⟨p.data.foldl (fun acc c => if c = '/' then [] else acc ++ [c]) []⟩

/-- `os.path.join` for POSIX paths (directory, file name). -/
def joinPath (d f : String) : String := d ++ "/" ++ f

/-- `os.path.abspath`, modelled as the identity: the model works with
already-absolute, already-normalized paths. -/
def abspath (p : String) : String := p

/-- Whether path `p` lies strictly inside directory `d`
(i.e. `d ++ "/"` is a prefix of `p`). -/
def inDir (d p : String) : Bool := (d.data ++ ['/']).isPrefixOf p.data

/-- Errors a pipeline invocation can surface: Python's `FileNotFoundError`,
`ValueError`, and `subprocess.CalledProcessError` (carrying captured stderr). -/
inductive Err where
  | fileNotFound (path : String)
  | valueError (path : String)
  | calledProcessError (msg : String)
deriving DecidableEq

/-- Association list of files: remove every entry under key `p`. -/
def eraseKey : List (String × Bytes) → String → List (String × Bytes)
  | [], _ => []
  | e :: es, p => if e.1 = p then eraseKey es p else e :: eraseKey es p

/-- Association list of files: remove every entry whose key lies in dir `d`. -/
def eraseDir : List (String × Bytes) → String → List (String × Bytes)
  | [], _ => []
  | e :: es, d => if inDir d e.1 then eraseDir es d else e :: eraseDir es d

/-- Association list lookup by path. -/
def lookupKey : List (String × Bytes) → String → Option Bytes
  | [], _ => none
  | e :: es, p => if e.1 = p then some e.2 else lookupKey es p

/-- The filesystem: existing files (path to contents) and created directories. -/
structure FS where
  files : List (String × Bytes)
  dirs : List String
deriving DecidableEq

namespace FS

/-- Read a file's contents (`open(p, "rb").read()`); `none` if absent. -/
def read (fs : FS) (p : String) : Option Bytes := lookupKey fs.files p

/-- `os.path.exists` restricted to files. -/
def existsFile (fs : FS) (p : String) : Bool := (fs.read p).isSome

/-- `os.path.getsize`. -/
def getsize (fs : FS) (p : String) : Option Nat := (fs.read p).map List.length

/-- Create or overwrite the file at `p` with contents `c`. -/
def write (fs : FS) (p : String) (c : Bytes) : FS :=
  { fs with files := (p, c) :: eraseKey fs.files p }

/-- `os.remove`. -/
def remove (fs : FS) (p : String) : FS :=
  { fs with files := eraseKey fs.files p }

/-- `os.makedirs(d, exist_ok=True)`. -/
def mkdirs (fs : FS) (d : String) : FS := { fs with dirs := d :: fs.dirs }

/-- Removal of a scoped temporary directory tree on exiting the
`tempfile.TemporaryDirectory()` context manager. -/
def removeTree (fs : FS) (d : String) : FS :=
  { fs with files := eraseDir fs.files d }

end FS

/-- Result of one run of the external `exiftool` subprocess: its exit code,
its captured stderr text, and the content of the target image file after the
run (equal to the input content when the tool fails, since
`-overwrite_original` replaces the file only on success). -/
structure ProcRes where
  exitCode : Nat
  errText : String
  newContent : Bytes

/-- The external metadata injector, abstracted: from the current image file
content and the descriptor file content to a process result. -/
def Injector := Bytes → Bytes → ProcRes

/-- Outcome of a pipeline invocation: normal return or a raised error,
together with the final filesystem. -/
abbrev PipeOut := Except Err Unit × FS

/-- Sparse tone-mapping parameter configuration (the Python `params` dict).
Each field is `none` when the key is absent; values are carried in their
serialized decimal form (see the file header). -/
structure HdrParams where
  gainMapMin : Option String := none
  gainMapMax : Option String := none
  gamma : Option String := none
  hdrCapacityMin : Option String := none
  hdrCapacityMax : Option String := none
deriving DecidableEq

namespace GenMotionPhoto

/-- `create_xmp_file` from `GenMotionPhoto.py` (lines 13-46): the motion-photo
XMP descriptor.  The Python function writes `xmp_content.strip()` to
`tmp_dir/motion.xmp` and returns that path; since the template starts with `<`
and ends with `>`, `strip()` is the identity, and the model returns the
content string (the caller performs the file write). -/
def create_xmp_file (image_length video_length : Nat) : String :=
"<x:xmpmeta xmlns:x=\"adobe:ns:meta/\" x:xmptk=\"Adobe XMP Core 5.1.0\">
 <rdf:RDF xmlns:rdf=\"http://www.w3.org/1999/02/22-rdf-syntax-ns#\">
  <rdf:Description rdf:about=\"\"
    xmlns:GCamera=\"http://ns.google.com/photos/1.0/camera/\"
    xmlns:GContainer=\"http://ns.google.com/photos/1.0/container/\"
    xmlns:Item=\"http://ns.google.com/photos/1.0/container/item/\">
   <GCamera:MotionPhoto>1</GCamera:MotionPhoto>
   <GCamera:MotionPhotoVersion>1</GCamera:MotionPhotoVersion>
   <GCamera:MotionPhotoPresentationTimestampUs>0</GCamera:MotionPhotoPresentationTimestampUs>
   <GContainer:Directory>
    <rdf:Seq>
     <rdf:li rdf:parseType=\"Resource\">
      <Item:Mime>image/jpeg</Item:Mime>
      <Item:Semantic>Primary</Item:Semantic>
      <Item:Length>" ++ toString image_length ++ "</Item:Length>
      <Item:Padding>0</Item:Padding>
     </rdf:li>
     <rdf:li rdf:parseType=\"Resource\">
      <Item:Mime>video/mp4</Item:Mime>
      <Item:Semantic>MotionPhoto</Item:Semantic>
      <Item:Length>" ++ toString video_length ++ "</Item:Length>
      <Item:Padding>0</Item:Padding>
     </rdf:li>
    </rdf:Seq>
   </GContainer:Directory>
  </rdf:Description>
 </rdf:RDF>
</x:xmpmeta>"

/-- `apply_metadata` from `GenMotionPhoto.py` (lines 49-63): run
`exiftool -overwrite_original -n -xmp<=xmp_path file_path` with `check=True`
and `capture_output=True`.  `subprocess.run(..., check=True)` raises
`CalledProcessError` exactly when the exit code is non-zero, carrying the
captured stderr; the tool's own reads of `file_path` and `xmp_path` are
modelled by the filesystem lookups. -/
def apply_metadata (inj : Injector) (fs : FS) (file_path xmp_path : String) :
    PipeOut :=
  match fs.read file_path, fs.read xmp_path with
  | some content, some xmpBytes =>
    let r := inj content xmpBytes
    if r.exitCode = 0 then (.ok (), fs.write file_path r.newContent)
    else (.error (.calledProcessError r.errText), fs)
  | _, _ => (.error (.fileNotFound file_path), fs)

/-- `gen_motion_photo` from `GenMotionPhoto.py` (lines 65-110).  The
existence check plus `os.path.getsize` on the video is collapsed into one
lookup (both inspect the same unchanged file), and `shutil.copy2` appears as
a read of the source followed by a write of the copy. -/
def gen_motion_photo (inj : Injector) (photo_path video_path output_dir : String)
    (tmp_dir : String) (fs : FS) : PipeOut :=
  let abs_photo := abspath photo_path
  let abs_video := abspath video_path
  let file_name := basename photo_path
  let output_path := abspath (joinPath output_dir file_name)
  let fs := fs.mkdirs output_dir
  match fs.read abs_video with
  | none => (.error (.fileNotFound abs_video), fs)
  | some video_bytes =>
  let video_size := video_bytes.length
  -- with tempfile.TemporaryDirectory() as tmp_dir:
  let tmp_photo := joinPath tmp_dir "temp_image.jpg"
  match fs.read abs_photo with
  | none => (.error (.fileNotFound abs_photo), fs.removeTree tmp_dir)
  | some photo_bytes =>
  let fs := fs.write tmp_photo photo_bytes          -- shutil.copy2
  let current_size := photo_bytes.length            -- os.path.getsize(tmp_photo)
  let xmp_path := joinPath tmp_dir "motion.xmp"
  let fs := fs.write xmp_path (strBytes (create_xmp_file current_size video_size))
  match apply_metadata inj fs tmp_photo xmp_path with
  | (.error e, fs1) => (.error e, fs1.removeTree tmp_dir)
  | (.ok _, fs1) =>
  match fs1.read tmp_photo with
  | none => (.error (.fileNotFound tmp_photo), fs1.removeTree tmp_dir)
  | some injected =>
  let final_image_size := injected.length           -- os.path.getsize(tmp_photo)
  let fs2 := fs1.write xmp_path
    (strBytes (create_xmp_file final_image_size video_size))
  match apply_metadata inj fs2 tmp_photo xmp_path with
  | (.error e, fs3) => (.error e, fs3.removeTree tmp_dir)
  | (.ok _, fs3) =>
  -- if os.path.exists(output_path): os.remove(output_path)
  let fs4 := if fs3.existsFile output_path then fs3.remove output_path else fs3
  -- shutil.move(tmp_photo, output_path)
  match fs4.read tmp_photo with
  | none => (.error (.fileNotFound tmp_photo), fs4.removeTree tmp_dir)
  | some processed =>
  let fs5 := (fs4.write output_path processed).remove tmp_photo
  let fs6 := fs5.removeTree tmp_dir                 -- context-manager exit
  -- append the video binary stream
  match fs6.read abs_video with
  | none => (.error (.fileNotFound abs_video), fs6)
  | some video_data =>
  (.ok (), fs6.write output_path (((fs6.read output_path).getD []) ++ video_data))

end GenMotionPhoto

namespace GenUltraHDRPhoto

/-- `create_ultrahdr_xmp` from `GenUltraHDRPhoto.py` (lines 10-60): the
Adobe gain-map XMP descriptor.  Note: the template's Primary `Item:Length`
is the literal `0`; the `image_length` parameter is never interpolated.
The five tone-mapping values come from `params.get(key, default)`. -/
def create_ultrahdr_xmp (image_length gainmap_length : Nat) (params : HdrParams) :
    String :=
  let gm_min := params.gainMapMin.getD "0.0"
  let gm_max := params.gainMapMax.getD "1.0"
  let gamma := params.gamma.getD "1.0"
  let h_min := params.hdrCapacityMin.getD "0.0"
  let h_max := params.hdrCapacityMax.getD "2.0"
"<x:xmpmeta xmlns:x=\"adobe:ns:meta/\" x:xmptk=\"Adobe XMP Core 5.1.0\">
 <rdf:RDF xmlns:rdf=\"http://www.w3.org/1999/02/22-rdf-syntax-ns#\">
  <rdf:Description rdf:about=\"\"
    xmlns:GContainer=\"http://ns.google.com/photos/1.0/container/\"
    xmlns:Item=\"http://ns.google.com/photos/1.0/container/item/\"
    xmlns:hdrgm=\"http://ns.adobe.com/hdr-gain-map/1.0/\">
   <hdrgm:Version>1.0</hdrgm:Version>
   <hdrgm:GainMapMin>" ++ gm_min ++ "</hdrgm:GainMapMin>
   <hdrgm:GainMapMax>" ++ gm_max ++ "</hdrgm:GainMapMax>
   <hdrgm:Gamma>" ++ gamma ++ "</hdrgm:Gamma>
   <hdrgm:OffsetSDR>0.015625</hdrgm:OffsetSDR>
   <hdrgm:OffsetHDR>0.015625</hdrgm:OffsetHDR>
   <hdrgm:HDRCapacityMin>" ++ h_min ++ "</hdrgm:HDRCapacityMin>
   <hdrgm:HDRCapacityMax>" ++ h_max ++ "</hdrgm:HDRCapacityMax>
   <hdrgm:BaseRendition>SDR</hdrgm:BaseRendition>
   <GContainer:Directory>
    <rdf:Seq>
     <rdf:li rdf:parseType=\"Resource\">
      <Item:Mime>image/jpeg</Item:Mime>
      <Item:Semantic>Primary</Item:Semantic>
      <Item:Length>0</Item:Length>
      <Item:Padding>0</Item:Padding>
     </rdf:li>
     <rdf:li rdf:parseType=\"Resource\">
      <Item:Mime>image/jpeg</Item:Mime>
      <Item:Semantic>GainMap</Item:Semantic>
      <Item:Length>" ++ toString gainmap_length ++ "</Item:Length>
      <Item:Padding>0</Item:Padding>
     </rdf:li>
    </rdf:Seq>
   </GContainer:Directory>
  </rdf:Description>
 </rdf:RDF>
</x:xmpmeta>"

/-- `apply_ultrahdr_metadata` from `GenUltraHDRPhoto.py` (lines 63-76):
`exiftool -overwrite_original -xmp<=xmp_path -MPFVersion=0100
-NumberOfImages=2 file_path` with `check=True, capture_output=True`. -/
def apply_ultrahdr_metadata (inj : Injector) (fs : FS) (file_path xmp_path : String) :
    PipeOut :=
  match fs.read file_path, fs.read xmp_path with
  | some content, some xmpBytes =>
    let r := inj content xmpBytes
    if r.exitCode = 0 then (.ok (), fs.write file_path r.newContent)
    else (.error (.calledProcessError r.errText), fs)
  | _, _ => (.error (.fileNotFound file_path), fs)

/-- `gen_ultra_hdr` from `GenUltraHDRPhoto.py` (lines 79-121).  The per-input
validation loop (`for p in [abs_sdr, abs_gm]`) checks existence and the JPEG
magic bytes `FF D8` (`f.read(2) != b'\xff\xd8'`) for the SDR image first,
then the gain map, before anything else. -/
def gen_ultra_hdr (inj : Injector) (sdr_path gainmap_path output_path : String)
    (params : HdrParams) (tmp_dir : String) (fs : FS) : PipeOut :=
  let abs_sdr := abspath sdr_path
  let abs_gm := abspath gainmap_path
  match fs.read abs_sdr with
  | none => (.error (.fileNotFound abs_sdr), fs)
  | some sdr_bytes =>
  if sdr_bytes.take 2 = [0xff, 0xd8] then
    match fs.read abs_gm with
    | none => (.error (.fileNotFound abs_gm), fs)
    | some gm_bytes =>
    if gm_bytes.take 2 = [0xff, 0xd8] then
      let gm_size := gm_bytes.length
      -- with tempfile.TemporaryDirectory() as tmp_dir:
      let tmp_output := joinPath tmp_dir "hdr_base.jpg"
      let fs := fs.write tmp_output sdr_bytes       -- shutil.copy2
      let xmp_path := joinPath tmp_dir "ultrahdr.xmp"
      let fs := fs.write xmp_path (strBytes (create_ultrahdr_xmp 0 gm_size params))
      match apply_ultrahdr_metadata inj fs tmp_output xmp_path with
      | (.error e, fs1) => (.error e, fs1.removeTree tmp_dir)
      | (.ok _, fs1) =>
      match fs1.read tmp_output with
      | none => (.error (.fileNotFound tmp_output), fs1.removeTree tmp_dir)
      | some injected =>
      let sdr_final_size := injected.length         -- os.path.getsize(tmp_output)
      let fs2 := fs1.write xmp_path
        (strBytes (create_ultrahdr_xmp sdr_final_size gm_size params))
      match apply_ultrahdr_metadata inj fs2 tmp_output xmp_path with
      | (.error e, fs3) => (.error e, fs3.removeTree tmp_dir)
      | (.ok _, fs3) =>
      let fs4 := if fs3.existsFile output_path then fs3.remove output_path else fs3
      match fs4.read tmp_output with
      | none => (.error (.fileNotFound tmp_output), fs4.removeTree tmp_dir)
      | some processed =>
      let fs5 := (fs4.write output_path processed).remove tmp_output
      let fs6 := fs5.removeTree tmp_dir             -- context-manager exit
      -- append the gain-map binary stream (re-read at append time)
      match fs6.read abs_gm with
      | none => (.error (.fileNotFound abs_gm), fs6)
      | some gm_data =>
      (.ok (), fs6.write output_path (((fs6.read output_path).getD []) ++ gm_data))
    else (.error (.valueError abs_gm), fs)
  else (.error (.valueError abs_sdr), fs)

end GenUltraHDRPhoto

namespace GenUltraHdrMotionPhoto

/-- `create_combined_xmp` from `GenUltraHdrMotionPhoto.py` (lines 9-60): the
combined gain-map + motion-photo XMP descriptor.  It reads only four
tone-mapping keys (`gainMapMin`, `gainMapMax`, `gamma`, `hdrCapacityMax`);
there is no `hdrCapacityMin` and no `OffsetSDR`/`OffsetHDR` in this template,
and the defaults for `gainMapMax`/`hdrCapacityMax` are `2.1`. -/
def create_combined_xmp (sdr_len gm_len video_len : Nat) (params : HdrParams) :
    String :=
  let gm_min := params.gainMapMin.getD "0.0"
  let gm_max := params.gainMapMax.getD "2.1"
  let gamma := params.gamma.getD "1.0"
  let h_max := params.hdrCapacityMax.getD "2.1"
"<x:xmpmeta xmlns:x=\"adobe:ns:meta/\" x:xmptk=\"Adobe XMP Core 5.1.0\">
 <rdf:RDF xmlns:rdf=\"http://www.w3.org/1999/02/22-rdf-syntax-ns#\">
  <rdf:Description rdf:about=\"\"
    xmlns:GCamera=\"http://ns.google.com/photos/1.0/camera/\"
    xmlns:GContainer=\"http://ns.google.com/photos/1.0/container/\"
    xmlns:Item=\"http://ns.google.com/photos/1.0/container/item/\"
    xmlns:hdrgm=\"http://ns.adobe.com/hdr-gain-map/1.0/\">
   <GCamera:MotionPhoto>1</GCamera:MotionPhoto>
   <GCamera:MotionPhotoVersion>1</GCamera:MotionPhotoVersion>
   <hdrgm:Version>1.0</hdrgm:Version>
   <hdrgm:GainMapMin>" ++ gm_min ++ "</hdrgm:GainMapMin>
   <hdrgm:GainMapMax>" ++ gm_max ++ "</hdrgm:GainMapMax>
   <hdrgm:Gamma>" ++ gamma ++ "</hdrgm:Gamma>
   <hdrgm:HDRCapacityMax>" ++ h_max ++ "</hdrgm:HDRCapacityMax>
   <hdrgm:BaseRendition>SDR</hdrgm:BaseRendition>
   <GContainer:Directory>
    <rdf:Seq>
     <rdf:li rdf:parseType=\"Resource\">
      <Item:Mime>image/jpeg</Item:Mime>
      <Item:Semantic>Primary</Item:Semantic>
      <Item:Length>" ++ toString sdr_len ++ "</Item:Length>
     </rdf:li>
     <rdf:li rdf:parseType=\"Resource\">
      <Item:Mime>image/jpeg</Item:Mime>
      <Item:Semantic>GainMap</Item:Semantic>
      <Item:Length>" ++ toString gm_len ++ "</Item:Length>
     </rdf:li>
     <rdf:li rdf:parseType=\"Resource\">
      <Item:Mime>video/mp4</Item:Mime>
      <Item:Semantic>MotionPhoto</Item:Semantic>
      <Item:Length>" ++ toString video_len ++ "</Item:Length>
     </rdf:li>
    </rdf:Seq>
   </GContainer:Directory>
  </rdf:Description>
 </rdf:RDF>
</x:xmpmeta>"

/-- `apply_metadata` from `GenUltraHdrMotionPhoto.py` (lines 62-64):
`exiftool -overwrite_original -n -xmp<=xmp_path -MPFVersion=0100
-NumberOfImages=3 file_path` with `check=True, capture_output=True`. -/
def apply_metadata (inj : Injector) (fs : FS) (file_path xmp_path : String) :
    PipeOut :=
  match fs.read file_path, fs.read xmp_path with
  | some content, some xmpBytes =>
    let r := inj content xmpBytes
    if r.exitCode = 0 then (.ok (), fs.write file_path r.newContent)
    else (.error (.calledProcessError r.errText), fs)
  | _, _ => (.error (.fileNotFound file_path), fs)

/-- `gen_hdr_motion_photo` from `GenUltraHdrMotionPhoto.py` (lines 66-92).
No existence or magic-byte validation: the two initial `os.path.getsize`
calls raise `FileNotFoundError` themselves on a missing gain map or video,
and a missing SDR image surfaces from `shutil.copy2`.  The two appends at
the end are separate sequential reads and writes on the output path. -/
def gen_hdr_motion_photo (inj : Injector) (sdr_path gm_path video_path output_path : String)
    (params : HdrParams) (tmp_dir : String) (fs : FS) : PipeOut :=
  match fs.read gm_path with
  | none => (.error (.fileNotFound gm_path), fs)
  | some gm_bytes =>
  let gm_size := gm_bytes.length                    -- os.path.getsize(gm_path)
  match fs.read video_path with
  | none => (.error (.fileNotFound video_path), fs)
  | some video_bytes =>
  let video_size := video_bytes.length              -- os.path.getsize(video_path)
  -- with tempfile.TemporaryDirectory() as tmp_dir:
  let tmp_jpg := joinPath tmp_dir "base.jpg"
  match fs.read sdr_path with
  | none => (.error (.fileNotFound sdr_path), fs.removeTree tmp_dir)
  | some sdr_bytes =>
  let fs := fs.write tmp_jpg sdr_bytes              -- shutil.copy2
  let xmp_path := joinPath tmp_dir "combined.xmp"
  let fs := fs.write xmp_path
    (strBytes (create_combined_xmp 0 gm_size video_size params))
  match apply_metadata inj fs tmp_jpg xmp_path with
  | (.error e, fs1) => (.error e, fs1.removeTree tmp_dir)
  | (.ok _, fs1) =>
  match fs1.read tmp_jpg with
  | none => (.error (.fileNotFound tmp_jpg), fs1.removeTree tmp_dir)
  | some injected =>
  let final_sdr_size := injected.length             -- os.path.getsize(tmp_jpg)
  let fs2 := fs1.write xmp_path
    (strBytes (create_combined_xmp final_sdr_size gm_size video_size params))
  match apply_metadata inj fs2 tmp_jpg xmp_path with
  | (.error e, fs3) => (.error e, fs3.removeTree tmp_dir)
  | (.ok _, fs3) =>
  let fs4 := if fs3.existsFile output_path then fs3.remove output_path else fs3
  match fs4.read tmp_jpg with
  | none => (.error (.fileNotFound tmp_jpg), fs4.removeTree tmp_dir)
  | some processed =>
  let fs5 := (fs4.write output_path processed).remove tmp_jpg
  let fs6 := fs5.removeTree tmp_dir                 -- context-manager exit
  -- append the gain-map stream, then the video stream
  match fs6.read gm_path with
  | none => (.error (.fileNotFound gm_path), fs6)
  | some gm_data =>
  let fs7 := fs6.write output_path (((fs6.read output_path).getD []) ++ gm_data)
  match fs7.read video_path with
  | none => (.error (.fileNotFound video_path), fs7)
  | some video_data =>
  (.ok (), fs7.write output_path (((fs7.read output_path).getD []) ++ video_data))

end GenUltraHdrMotionPhoto

/-! ## Observables of the two-pass injection protocol

Derived quantities of the code, used to state the claims: the descriptor
contents of the two passes, the primary-image content after each pass, and the
"converged" primary length (the size measured after the first injection, which
the second build declares). -/

/-- Motion pipeline: primary content after both injections, starting from
photo bytes `pb` and video bytes `vb`. -/
def motionPrimary (inj : Injector) (pb vb : Bytes) : Bytes :=
  let x1 := strBytes (GenMotionPhoto.create_xmp_file pb.length vb.length)
  let p1 := (inj pb x1).newContent
  let x2 := strBytes (GenMotionPhoto.create_xmp_file p1.length vb.length)
  (inj p1 x2).newContent

/-- Motion pipeline: the primary length measured after the first injection
(the length the final descriptor declares for Primary). -/
def motionConverged (inj : Injector) (pb vb : Bytes) : Nat :=
  ((inj pb (strBytes (GenMotionPhoto.create_xmp_file pb.length vb.length))).newContent).length

/-- Gain-map pipeline: primary content after both injections. -/
def ultraPrimary (inj : Injector) (sb gb : Bytes) (params : HdrParams) : Bytes :=
  let x1 := strBytes (GenUltraHDRPhoto.create_ultrahdr_xmp 0 gb.length params)
  let p1 := (inj sb x1).newContent
  let x2 := strBytes (GenUltraHDRPhoto.create_ultrahdr_xmp p1.length gb.length params)
  (inj p1 x2).newContent

/-- Gain-map pipeline: the primary length measured after the first injection. -/
def ultraConverged (inj : Injector) (sb gb : Bytes) (params : HdrParams) : Nat :=
  ((inj sb (strBytes (GenUltraHDRPhoto.create_ultrahdr_xmp 0 gb.length params))).newContent).length

/-- Combined pipeline: primary content after both injections. -/
def combinedPrimary (inj : Injector) (sb gb vb : Bytes) (params : HdrParams) : Bytes :=
  let x1 := strBytes (GenUltraHdrMotionPhoto.create_combined_xmp 0 gb.length vb.length params)
  let p1 := (inj sb x1).newContent
  let x2 := strBytes
    (GenUltraHdrMotionPhoto.create_combined_xmp p1.length gb.length vb.length params)
  (inj p1 x2).newContent

/-- Combined pipeline: the primary length measured after the first injection. -/
def combinedConverged (inj : Injector) (sb gb vb : Bytes) (params : HdrParams) : Nat :=
  ((inj sb (strBytes
    (GenUltraHdrMotionPhoto.create_combined_xmp 0 gb.length vb.length params))).newContent).length

/-! ## String occurrence machinery

Vocabulary for stating facts about the generated XMP descriptors: that a
given fragment occurs in a descriptor, and that several fragments occur in a
given order.  The checks are executable scans over character lists with
soundness lemmas, so that occurrences inside literal template chunks can be
established by `decide`. -/

/-- Executable substring scan over character lists. -/
def hasSub (n : List Char) : List Char → Bool
  | [] => n.isEmpty
  | c :: cs => n.isPrefixOf (c :: cs) || hasSub n cs

/-- Executable substring scan over strings. -/
def strHasSub (n s : String) : Bool := hasSub n.data s.data

/-- `n` occurs (contiguously) somewhere inside `s`. -/
def occursAt (n s : String) : Prop := ∃ a b : String, s = a ++ n ++ b

/-- `s` starts with `n`. -/
def leadsWith (n s : String) : Prop := ∃ b, s = n ++ b

/-- `s` ends with `n`. -/
def trailsWith (n s : String) : Prop := ∃ a, s = a ++ n

/-- The fragments `ns` all occur in `s`, disjointly and in the given order. -/
def chainIn : List String → String → Prop
  | [], _ => True
  | n :: ns, s => ∃ a b : String, s = a ++ n ++ b ∧ chainIn ns b

/-- Remainder of `h` after the first occurrence of `n`; `none` when `n` does
not occur. -/
def dropSub (n : List Char) : List Char → Option (List Char)
  | [] => if n.isEmpty then some [] else none
  | c :: cs => if n.isPrefixOf (c :: cs) then some ((c :: cs).drop n.length) else dropSub n cs

/-- Executable check that the fragments occur in order (each after the
previous one's end). -/
def chainSub : List (List Char) → List Char → Bool
  | [], _ => true
  | n :: ns, h =>
    match dropSub n h with
    | some r => chainSub ns r
    | none => false

/-- The XMP fragment marking a Directory entry's semantic role. -/
def semTag (role : String) : String := "<Item:Semantic>" ++ role ++ "</Item:Semantic>"

/-- The descriptor `s` declares an Item whose `Item:Length` is `n`, for the
Directory entry identified by `x` — the run of template text from the entry's
`Item:Semantic` tag through its opening `<Item:Length>` tag (e.g.
`"<Item:Semantic>GainMap</Item:Semantic>\n      <Item:Length>"`): that run,
immediately followed by the decimal of `n` and the closing tag, occurs in `s`. -/
def declaresLength (s x : String) (n : Nat) : Prop :=
  occursAt (x ++ (toString n ++ "</Item:Length>")) s

/-! ## The convergence assumption, and concrete injectors

`SizeStable` is the design assumption the spec documents for the two-pass
protocol (a second injection does not change the file's byte length).  The
concrete injectors below are used to instantiate the abstract `Injector` in
closed-form witnesses and counterexamples: `injW` models a tool that prepends
a fixed header byte unless already present (succeeding, size-stable);
`injFail` a tool that always exits non-zero; `injWarn` a tool that succeeds
while emitting text on stderr. -/

/-- The two-pass convergence assumption: injecting again into an
already-injected image yields content of the same byte length. -/
def SizeStable (inj : Injector) : Prop :=
  ∀ c x y,
    ((inj ((inj c x).newContent) y).newContent).length = ((inj c x).newContent).length

/-- A concrete injector: prepends header byte `9` when absent; exit code 0,
empty stderr. -/
def injW : Injector := fun c _ =>
  ⟨0, "", if c.head? = some 9 then c else 9 :: c⟩

/-- A concrete injector that always fails (exit code 1). -/
def injFail : Injector := fun c _ => ⟨1, "exiftool: write failed", c⟩

/-- A concrete injector that succeeds but emits a warning on stderr. -/
def injWarn : Injector := fun c _ => ⟨0, "Warning: minor issues in file", c⟩

/-- A concrete input filesystem: a photo, an SDR image, a gain map and a
video, all outside the temporary directory `/t` and the output locations. -/
def wfs : FS :=
  ⟨[("/in/p.jpg", [0xff, 0xd8, 1]), ("/in/s.jpg", [0xff, 0xd8, 2]),
    ("/in/g.jpg", [0xff, 0xd8, 3, 4]), ("/in/v.mp4", [7, 8, 9, 10, 11])], []⟩

/-! ## Basic lemmas about the filesystem model -/

theorem lookupKey_eraseKey (l : List (String × Bytes)) (p q : String) :
    lookupKey (eraseKey l p) q = if q = p then none else lookupKey l q := by
  induction l with
  | nil => simp [eraseKey, lookupKey]
  | cons e es ih =>
    by_cases hep : e.1 = p
    · have h1 : eraseKey (e :: es) p = eraseKey es p := by simp [eraseKey, hep]
      rw [h1, ih]
      by_cases hqp : q = p
      · simp [hqp]
      · have hne : ¬ e.1 = q := fun h => hqp (h.symm.trans hep)
        simp [lookupKey, hqp, hne]
    · have h1 : eraseKey (e :: es) p = e :: eraseKey es p := by simp [eraseKey, hep]
      rw [h1]
      by_cases heq : e.1 = q
      · have hqp : ¬ q = p := fun h => hep (heq.trans h)
        simp [lookupKey, heq, hqp]
      · simp [lookupKey, heq, ih]

theorem lookupKey_eraseDir (l : List (String × Bytes)) (d q : String) :
    lookupKey (eraseDir l d) q = if inDir d q then none else lookupKey l q := by
  induction l with
  | nil => simp [eraseDir, lookupKey]
  | cons e es ih =>
    by_cases hed : inDir d e.1 = true
    · by_cases heq : e.1 = q
      · simp [eraseDir, lookupKey, hed, heq ▸ hed, heq, ih]
      · simp [eraseDir, lookupKey, hed, heq, ih]
    · by_cases heq : e.1 = q
      · have hq : inDir d q = false := by
          rw [← heq]; exact Bool.eq_false_iff.mpr hed
        simp [eraseDir, lookupKey, hed, heq, hq]
      · simp [eraseDir, lookupKey, hed, heq, ih]

theorem eraseDir_eq_self (l : List (String × Bytes)) (d : String)
    (h : ∀ e ∈ l, inDir d e.1 = false) : eraseDir l d = l := by
  induction l with
  | nil => rfl
  | cons e es ih =>
    have he := h e (List.mem_cons_self e es)
    simp [eraseDir, he, ih fun x hx => h x (List.mem_cons_of_mem e hx)]

theorem eraseDir_eraseKey (l : List (String × Bytes)) (d p : String)
    (h : inDir d p = true) : eraseDir (eraseKey l p) d = eraseDir l d := by
  induction l with
  | nil => rfl
  | cons e es ih =>
    by_cases hep : e.1 = p
    · have he : inDir d e.1 = true := by rw [hep]; exact h
      calc eraseDir (eraseKey (e :: es) p) d
          = eraseDir (eraseKey es p) d := by simp [eraseKey, hep]
        _ = eraseDir es d := ih
        _ = eraseDir (e :: es) d := by simp [eraseDir, he]
    · have h1 : eraseKey (e :: es) p = e :: eraseKey es p := by simp [eraseKey, hep]
      rw [h1]
      by_cases hed : inDir d e.1 <;> simp [eraseDir, hed, ih]

namespace FS

theorem read_write (fs : FS) (p : String) (c : Bytes) (q : String) :
    (fs.write p c).read q = if q = p then some c else fs.read q := by
  by_cases h : q = p
  · simp [read, write, lookupKey, h]
  · have : ¬ p = q := fun hh => h hh.symm
    simp [read, write, lookupKey, this, lookupKey_eraseKey, h]

theorem read_remove (fs : FS) (p q : String) :
    (fs.remove p).read q = if q = p then none else fs.read q := by
  simp [read, remove, lookupKey_eraseKey]

theorem read_removeTree (fs : FS) (d q : String) :
    (fs.removeTree d).read q = if inDir d q then none else fs.read q := by
  simp [read, removeTree, lookupKey_eraseDir]

@[simp] theorem read_mkdirs (fs : FS) (d q : String) :
    (fs.mkdirs d).read q = fs.read q := rfl

@[simp] theorem dirs_write (fs : FS) (p : String) (c : Bytes) :
    (fs.write p c).dirs = fs.dirs := rfl

@[simp] theorem dirs_remove (fs : FS) (p : String) : (fs.remove p).dirs = fs.dirs := rfl

@[simp] theorem dirs_removeTree (fs : FS) (d : String) :
    (fs.removeTree d).dirs = fs.dirs := rfl

@[simp] theorem dirs_mkdirs (fs : FS) (d : String) :
    (fs.mkdirs d).dirs = d :: fs.dirs := rfl

@[simp] theorem files_mkdirs (fs : FS) (d : String) :
    (fs.mkdirs d).files = fs.files := rfl

theorem existsFile_eq (fs : FS) (p : String) :
    fs.existsFile p = (fs.read p).isSome := rfl

theorem files_removeTree_write (fs : FS) (d p : String) (c : Bytes)
    (h : inDir d p = true) :
    ((fs.write p c).removeTree d).files = (fs.removeTree d).files := by
  simp [write, removeTree, eraseDir, h, eraseDir_eraseKey _ _ _ h]

theorem files_removeTree_eq_self (fs : FS) (d : String)
    (h : ∀ e ∈ fs.files, inDir d e.1 = false) :
    (fs.removeTree d).files = fs.files := by
  simp [removeTree, eraseDir_eq_self _ _ h]

end FS

/-! ## Basic lemmas about the path model -/

theorem isPrefixOf_append_right (l t : List Char) : l.isPrefixOf (l ++ t) = true := by
  induction l with
  | nil => simp [List.isPrefixOf]
  | cons a as ih => simp [List.isPrefixOf, ih]

theorem inDir_joinPath (d f : String) : inDir d (joinPath d f) = true := by
  have h1 : (joinPath d f).data = (d.data ++ ['/']) ++ f.data := by
    show ((d ++ "/") ++ f).data = _
    rw [String.data_append, String.data_append]
  simp only [inDir, h1]
  exact isPrefixOf_append_right _ _

theorem joinPath_inj {d a b : String} (h : joinPath d a = joinPath d b) : a = b := by
  have hd : ((d ++ "/") ++ a).data = ((d ++ "/") ++ b).data := congrArg String.data h
  rw [String.data_append, String.data_append] at hd
  exact String.ext (List.append_cancel_left hd)

theorem ne_joinPath_of_notin {d p f : String} (h : inDir d p = false) :
    p ≠ joinPath d f := by
  intro he
  rw [he, inDir_joinPath] at h
  exact Bool.false_ne_true h.symm

theorem joinPath_ne_of_ne {d : String} {a b : String} (h : a ≠ b) :
    joinPath d a ≠ joinPath d b := fun he => h (joinPath_inj he)

/-! ## Success-path characterization of the three pipelines

Shared helper lemmas: under present inputs, an always-succeeding injector and
a fresh temporary directory, each pipeline returns normally, the output path
holds the twice-injected primary followed by the appended segments, every
other path outside the temporary directory is untouched, and nothing under
the temporary directory survives. -/

theorem gen_motion_photo_run (inj : Injector) (photo video outDir tmp : String)
    (fs : FS) (pb vb : Bytes)
    (hp : fs.read photo = some pb) (hv : fs.read video = some vb)
    (hok : ∀ c x, (inj c x).exitCode = 0)
    (hout : inDir tmp (joinPath outDir (basename photo)) = false)
    (hvt : inDir tmp video = false)
    (hvo : video ≠ joinPath outDir (basename photo)) :
    (GenMotionPhoto.gen_motion_photo inj photo video outDir tmp fs).1 = .ok () ∧
    (GenMotionPhoto.gen_motion_photo inj photo video outDir tmp fs).2.read
        (joinPath outDir (basename photo)) = some (motionPrimary inj pb vb ++ vb) ∧
    (∀ q, q ≠ joinPath outDir (basename photo) → inDir tmp q = false →
      (GenMotionPhoto.gen_motion_photo inj photo video outDir tmp fs).2.read q = fs.read q) ∧
    (GenMotionPhoto.gen_motion_photo inj photo video outDir tmp fs).2.dirs =
      outDir :: fs.dirs ∧
    (∀ q, inDir tmp q = true →
      (GenMotionPhoto.gen_motion_photo inj photo video outDir tmp fs).2.read q = none) := by
  have htp : inDir tmp (joinPath tmp "temp_image.jpg") = true := inDir_joinPath _ _
  have hxp : inDir tmp (joinPath tmp "motion.xmp") = true := inDir_joinPath _ _
  have h1 : joinPath tmp "temp_image.jpg" ≠ joinPath tmp "motion.xmp" :=
    joinPath_ne_of_ne (by decide)
  have h2 : joinPath tmp "motion.xmp" ≠ joinPath tmp "temp_image.jpg" := h1.symm
  have h3 : joinPath outDir (basename photo) ≠ joinPath tmp "temp_image.jpg" := by
    intro h; rw [h, htp] at hout; exact Bool.noConfusion hout
  have h3s : joinPath tmp "temp_image.jpg" ≠ joinPath outDir (basename photo) := h3.symm
  have h4 : joinPath outDir (basename photo) ≠ joinPath tmp "motion.xmp" := by
    intro h; rw [h, hxp] at hout; exact Bool.noConfusion hout
  have h4s : joinPath tmp "motion.xmp" ≠ joinPath outDir (basename photo) := h4.symm
  have h5 : video ≠ joinPath tmp "temp_image.jpg" := by
    intro h; rw [h, htp] at hvt; exact Bool.noConfusion hvt
  have h6 : video ≠ joinPath tmp "motion.xmp" := by
    intro h; rw [h, hxp] at hvt; exact Bool.noConfusion hvt
  by_cases hex : (fs.read (joinPath outDir (basename photo))).isSome
  all_goals
    refine ⟨?_, ?_, ?_, ?_, ?_⟩
    · simp [GenMotionPhoto.gen_motion_photo, GenMotionPhoto.apply_metadata, abspath,
        FS.read_mkdirs, hv, hp, hok, FS.read_write, FS.read_remove, FS.read_removeTree,
        FS.existsFile_eq, h1, h2, h3, h3s, h4, h4s, h5, h6, htp, hxp, hout, hvt, hvo,
        hex, motionPrimary]
    · simp [GenMotionPhoto.gen_motion_photo, GenMotionPhoto.apply_metadata, abspath,
        FS.read_mkdirs, hv, hp, hok, FS.read_write, FS.read_remove, FS.read_removeTree,
        FS.existsFile_eq, h1, h2, h3, h3s, h4, h4s, h5, h6, htp, hxp, hout, hvt, hvo,
        hex, motionPrimary]
    · intro q hq hqt
      have hq1 : q ≠ joinPath tmp "temp_image.jpg" := by
        intro h; rw [h, htp] at hqt; exact Bool.noConfusion hqt
      have hq2 : q ≠ joinPath tmp "motion.xmp" := by
        intro h; rw [h, hxp] at hqt; exact Bool.noConfusion hqt
      simp [GenMotionPhoto.gen_motion_photo, GenMotionPhoto.apply_metadata, abspath,
        FS.read_mkdirs, hv, hp, hok, FS.read_write, FS.read_remove, FS.read_removeTree,
        FS.existsFile_eq, h1, h2, h3, h3s, h4, h4s, h5, h6, htp, hxp, hout, hvt, hvo,
        hex, hq, hq1, hq2, hqt]
    · simp [GenMotionPhoto.gen_motion_photo, GenMotionPhoto.apply_metadata, abspath,
        FS.read_mkdirs, hv, hp, hok, FS.read_write, FS.read_remove, FS.read_removeTree,
        FS.existsFile_eq, h1, h2, h3, h3s, h4, h4s, h5, h6, htp, hxp, hout, hvt, hvo,
        hex]
    · intro q hqt
      have hq3 : q ≠ joinPath outDir (basename photo) := by
        intro h; rw [h, hout] at hqt; exact Bool.noConfusion hqt
      simp [GenMotionPhoto.gen_motion_photo, GenMotionPhoto.apply_metadata, abspath,
        FS.read_mkdirs, hv, hp, hok, FS.read_write, FS.read_remove, FS.read_removeTree,
        FS.existsFile_eq, h1, h2, h3, h3s, h4, h4s, h5, h6, htp, hxp, hout, hvt, hvo,
        hex, hqt, hq3]

theorem gen_ultra_hdr_run (inj : Injector) (sdr gm out tmp : String)
    (params : HdrParams) (fs : FS) (sb gb : Bytes)
    (hs : fs.read sdr = some sb) (hg : fs.read gm = some gb)
    (hsj : sb.take 2 = [0xff, 0xd8]) (hgj : gb.take 2 = [0xff, 0xd8])
    (hok : ∀ c x, (inj c x).exitCode = 0)
    (hout : inDir tmp out = false)
    (hgt : inDir tmp gm = false)
    (hgo : gm ≠ out) :
    (GenUltraHDRPhoto.gen_ultra_hdr inj sdr gm out params tmp fs).1 = .ok () ∧
    (GenUltraHDRPhoto.gen_ultra_hdr inj sdr gm out params tmp fs).2.read out =
      some (ultraPrimary inj sb gb params ++ gb) ∧
    (∀ q, q ≠ out → inDir tmp q = false →
      (GenUltraHDRPhoto.gen_ultra_hdr inj sdr gm out params tmp fs).2.read q = fs.read q) ∧
    (GenUltraHDRPhoto.gen_ultra_hdr inj sdr gm out params tmp fs).2.dirs = fs.dirs ∧
    (∀ q, inDir tmp q = true →
      (GenUltraHDRPhoto.gen_ultra_hdr inj sdr gm out params tmp fs).2.read q = none) := by
  have htp : inDir tmp (joinPath tmp "hdr_base.jpg") = true := inDir_joinPath _ _
  have hxp : inDir tmp (joinPath tmp "ultrahdr.xmp") = true := inDir_joinPath _ _
  have h1 : joinPath tmp "hdr_base.jpg" ≠ joinPath tmp "ultrahdr.xmp" :=
    joinPath_ne_of_ne (by decide)
  have h2 : joinPath tmp "ultrahdr.xmp" ≠ joinPath tmp "hdr_base.jpg" := h1.symm
  have h3 : out ≠ joinPath tmp "hdr_base.jpg" := by
    intro h; rw [h, htp] at hout; exact Bool.noConfusion hout
  have h3s : joinPath tmp "hdr_base.jpg" ≠ out := h3.symm
  have h4 : out ≠ joinPath tmp "ultrahdr.xmp" := by
    intro h; rw [h, hxp] at hout; exact Bool.noConfusion hout
  have h4s : joinPath tmp "ultrahdr.xmp" ≠ out := h4.symm
  have h5 : gm ≠ joinPath tmp "hdr_base.jpg" := by
    intro h; rw [h, htp] at hgt; exact Bool.noConfusion hgt
  have h6 : gm ≠ joinPath tmp "ultrahdr.xmp" := by
    intro h; rw [h, hxp] at hgt; exact Bool.noConfusion hgt
  by_cases hex : (fs.read out).isSome
  all_goals
    refine ⟨?_, ?_, ?_, ?_, ?_⟩
    · simp [GenUltraHDRPhoto.gen_ultra_hdr, GenUltraHDRPhoto.apply_ultrahdr_metadata, abspath,
        FS.read_mkdirs, hs, hg, hsj, hgj, hok, FS.read_write, FS.read_remove,
        FS.read_removeTree, FS.existsFile_eq, h1, h2, h3, h3s, h4, h4s, h5, h6, htp, hxp,
        hout, hgt, hgo, hex, ultraPrimary]
    · simp [GenUltraHDRPhoto.gen_ultra_hdr, GenUltraHDRPhoto.apply_ultrahdr_metadata, abspath,
        FS.read_mkdirs, hs, hg, hsj, hgj, hok, FS.read_write, FS.read_remove,
        FS.read_removeTree, FS.existsFile_eq, h1, h2, h3, h3s, h4, h4s, h5, h6, htp, hxp,
        hout, hgt, hgo, hex, ultraPrimary]
    · intro q hq hqt
      have hq1 : q ≠ joinPath tmp "hdr_base.jpg" := by
        intro h; rw [h, htp] at hqt; exact Bool.noConfusion hqt
      have hq2 : q ≠ joinPath tmp "ultrahdr.xmp" := by
        intro h; rw [h, hxp] at hqt; exact Bool.noConfusion hqt
      simp [GenUltraHDRPhoto.gen_ultra_hdr, GenUltraHDRPhoto.apply_ultrahdr_metadata, abspath,
        FS.read_mkdirs, hs, hg, hsj, hgj, hok, FS.read_write, FS.read_remove,
        FS.read_removeTree, FS.existsFile_eq, h1, h2, h3, h3s, h4, h4s, h5, h6, htp, hxp,
        hout, hgt, hgo, hex, hq, hq1, hq2, hqt]
    · simp [GenUltraHDRPhoto.gen_ultra_hdr, GenUltraHDRPhoto.apply_ultrahdr_metadata, abspath,
        FS.read_mkdirs, hs, hg, hsj, hgj, hok, FS.read_write, FS.read_remove,
        FS.read_removeTree, FS.existsFile_eq, h1, h2, h3, h3s, h4, h4s, h5, h6, htp, hxp,
        hout, hgt, hgo, hex]
    · intro q hqt
      have hq3 : q ≠ out := by
        intro h; rw [h, hout] at hqt; exact Bool.noConfusion hqt
      simp [GenUltraHDRPhoto.gen_ultra_hdr, GenUltraHDRPhoto.apply_ultrahdr_metadata, abspath,
        FS.read_mkdirs, hs, hg, hsj, hgj, hok, FS.read_write, FS.read_remove,
        FS.read_removeTree, FS.existsFile_eq, h1, h2, h3, h3s, h4, h4s, h5, h6, htp, hxp,
        hout, hgt, hgo, hex, hqt, hq3]

theorem gen_hdr_motion_photo_run (inj : Injector) (sdr gm video out tmp : String)
    (params : HdrParams) (fs : FS) (sb gb vb : Bytes)
    (hs : fs.read sdr = some sb) (hg : fs.read gm = some gb)
    (hv : fs.read video = some vb)
    (hok : ∀ c x, (inj c x).exitCode = 0)
    (hout : inDir tmp out = false)
    (hgt : inDir tmp gm = false)
    (hvt : inDir tmp video = false)
    (hgo : gm ≠ out) (hvo : video ≠ out) :
    (GenUltraHdrMotionPhoto.gen_hdr_motion_photo inj sdr gm video out params tmp fs).1 =
      .ok () ∧
    (GenUltraHdrMotionPhoto.gen_hdr_motion_photo inj sdr gm video out params tmp fs).2.read
        out = some (combinedPrimary inj sb gb vb params ++ (gb ++ vb)) ∧
    (∀ q, q ≠ out → inDir tmp q = false →
      (GenUltraHdrMotionPhoto.gen_hdr_motion_photo inj sdr gm video out params tmp fs).2.read
        q = fs.read q) ∧
    (GenUltraHdrMotionPhoto.gen_hdr_motion_photo inj sdr gm video out params tmp fs).2.dirs =
      fs.dirs ∧
    (∀ q, inDir tmp q = true →
      (GenUltraHdrMotionPhoto.gen_hdr_motion_photo inj sdr gm video out params tmp fs).2.read
        q = none) := by
  have htp : inDir tmp (joinPath tmp "base.jpg") = true := inDir_joinPath _ _
  have hxp : inDir tmp (joinPath tmp "combined.xmp") = true := inDir_joinPath _ _
  have h1 : joinPath tmp "base.jpg" ≠ joinPath tmp "combined.xmp" :=
    joinPath_ne_of_ne (by decide)
  have h2 : joinPath tmp "combined.xmp" ≠ joinPath tmp "base.jpg" := h1.symm
  have h3 : out ≠ joinPath tmp "base.jpg" := by
    intro h; rw [h, htp] at hout; exact Bool.noConfusion hout
  have h3s : joinPath tmp "base.jpg" ≠ out := h3.symm
  have h4 : out ≠ joinPath tmp "combined.xmp" := by
    intro h; rw [h, hxp] at hout; exact Bool.noConfusion hout
  have h4s : joinPath tmp "combined.xmp" ≠ out := h4.symm
  have h5 : gm ≠ joinPath tmp "base.jpg" := by
    intro h; rw [h, htp] at hgt; exact Bool.noConfusion hgt
  have h6 : gm ≠ joinPath tmp "combined.xmp" := by
    intro h; rw [h, hxp] at hgt; exact Bool.noConfusion hgt
  have h7 : video ≠ joinPath tmp "base.jpg" := by
    intro h; rw [h, htp] at hvt; exact Bool.noConfusion hvt
  have h8 : video ≠ joinPath tmp "combined.xmp" := by
    intro h; rw [h, hxp] at hvt; exact Bool.noConfusion hvt
  by_cases hex : (fs.read out).isSome
  all_goals
    refine ⟨?_, ?_, ?_, ?_, ?_⟩
    · simp [GenUltraHdrMotionPhoto.gen_hdr_motion_photo, GenUltraHdrMotionPhoto.apply_metadata,
        abspath, FS.read_mkdirs, hs, hg, hv, hok, FS.read_write, FS.read_remove,
        FS.read_removeTree, FS.existsFile_eq, h1, h2, h3, h3s, h4, h4s, h5, h6, h7, h8,
        htp, hxp, hout, hgt, hvt, hgo, hvo, hex, combinedPrimary]
    · simp [GenUltraHdrMotionPhoto.gen_hdr_motion_photo, GenUltraHdrMotionPhoto.apply_metadata,
        abspath, FS.read_mkdirs, hs, hg, hv, hok, FS.read_write, FS.read_remove,
        FS.read_removeTree, FS.existsFile_eq, h1, h2, h3, h3s, h4, h4s, h5, h6, h7, h8,
        htp, hxp, hout, hgt, hvt, hgo, hvo, hex, combinedPrimary]
    · intro q hq hqt
      have hq1 : q ≠ joinPath tmp "base.jpg" := by
        intro h; rw [h, htp] at hqt; exact Bool.noConfusion hqt
      have hq2 : q ≠ joinPath tmp "combined.xmp" := by
        intro h; rw [h, hxp] at hqt; exact Bool.noConfusion hqt
      simp [GenUltraHdrMotionPhoto.gen_hdr_motion_photo, GenUltraHdrMotionPhoto.apply_metadata,
        abspath, FS.read_mkdirs, hs, hg, hv, hok, FS.read_write, FS.read_remove,
        FS.read_removeTree, FS.existsFile_eq, h1, h2, h3, h3s, h4, h4s, h5, h6, h7, h8,
        htp, hxp, hout, hgt, hvt, hgo, hvo, hex, hq, hq1, hq2, hqt]
    · simp [GenUltraHdrMotionPhoto.gen_hdr_motion_photo, GenUltraHdrMotionPhoto.apply_metadata,
        abspath, FS.read_mkdirs, hs, hg, hv, hok, FS.read_write, FS.read_remove,
        FS.read_removeTree, FS.existsFile_eq, h1, h2, h3, h3s, h4, h4s, h5, h6, h7, h8,
        htp, hxp, hout, hgt, hvt, hgo, hvo, hex]
    · intro q hqt
      have hq3 : q ≠ out := by
        intro h; rw [h, hout] at hqt; exact Bool.noConfusion hqt
      simp [GenUltraHdrMotionPhoto.gen_hdr_motion_photo, GenUltraHdrMotionPhoto.apply_metadata,
        abspath, FS.read_mkdirs, hs, hg, hv, hok, FS.read_write, FS.read_remove,
        FS.read_removeTree, FS.existsFile_eq, h1, h2, h3, h3s, h4, h4s, h5, h6, h7, h8,
        htp, hxp, hout, hgt, hvt, hgo, hvo, hex, hqt, hq3]

theorem isPrefixOf_eq_append (n : List Char) :
    ∀ l, n.isPrefixOf l = true → l = n ++ l.drop n.length := by
  induction n with
  | nil => intro l _; simp
  | cons a as ih =>
    intro l h
    cases l with
    | nil => simp [List.isPrefixOf] at h
    | cons b bs =>
      simp only [List.isPrefixOf, Bool.and_eq_true, beq_iff_eq] at h
      obtain ⟨rfl, h2⟩ := h
      simpa using ih bs h2

theorem hasSub_split (n : List Char) :
    ∀ h, hasSub n h = true → ∃ a b, h = a ++ n ++ b := by
  intro h
  induction h with
  | nil =>
    intro hh
    simp only [hasSub, List.isEmpty_iff] at hh
    exact ⟨[], [], by simp [hh]⟩
  | cons c cs ih =>
    intro hh
    simp only [hasSub, Bool.or_eq_true] at hh
    rcases hh with hh | hh
    · exact ⟨[], (c :: cs).drop n.length, by simpa using isPrefixOf_eq_append n (c :: cs) hh⟩
    · obtain ⟨a, b, e⟩ := ih hh
      exact ⟨c :: a, b, by simp [e]⟩

theorem occursAt_of_hasSub {n s : String} (h : strHasSub n s = true) : occursAt n s := by
  obtain ⟨a, b, e⟩ := hasSub_split n.data s.data h
  refine ⟨⟨a⟩, ⟨b⟩, String.ext ?_⟩
  rw [String.data_append, String.data_append]
  exact e

theorem leadsWith_of_check {n s : String} (h : n.data.isPrefixOf s.data = true) :
    leadsWith n s := by
  refine ⟨⟨s.data.drop n.data.length⟩, String.ext ?_⟩
  rw [String.data_append]
  exact isPrefixOf_eq_append n.data s.data h

theorem trailsWith_of_check {n s : String}
    (h : n.data.reverse.isPrefixOf s.data.reverse = true) : trailsWith n s := by
  have e := isPrefixOf_eq_append n.data.reverse s.data.reverse h
  refine ⟨⟨(s.data.reverse.drop n.data.reverse.length).reverse⟩, String.ext ?_⟩
  rw [String.data_append]
  have := congrArg List.reverse e
  simpa using this

theorem occursAt_skip {n t : String} (s : String) (h : occursAt n t) :
    occursAt n (s ++ t) := by
  obtain ⟨a, b, e⟩ := h
  exact ⟨s ++ a, b, by rw [e]; simp [String.append_assoc]⟩

theorem occursAt_in_head {n L : String} (rest : String) (h : strHasSub n L = true) :
    occursAt n (L ++ rest) := by
  obtain ⟨a, b, e⟩ := occursAt_of_hasSub h
  exact ⟨a, b ++ rest, by rw [e]; simp [String.append_assoc]⟩

theorem occursAt_span {x v y L M : String} (rest : String)
    (hL : trailsWith x L) (hM : leadsWith y M) :
    occursAt (x ++ (v ++ y)) (L ++ (v ++ (M ++ rest))) := by
  obtain ⟨a, ea⟩ := hL
  obtain ⟨m, em⟩ := hM
  exact ⟨a, m ++ rest, by rw [ea, em]; simp [String.append_assoc]⟩

theorem occursAt_span_end {x v y L M : String}
    (hL : trailsWith x L) (hM : leadsWith y M) :
    occursAt (x ++ (v ++ y)) (L ++ (v ++ M)) := by
  obtain ⟨a, ea⟩ := hL
  obtain ⟨m, em⟩ := hM
  exact ⟨a, m, by rw [ea, em]; simp [String.append_assoc]⟩

theorem chainIn_nil (s : String) : chainIn [] s := trivial

theorem chainIn_skip {ns : List String} {t : String} (s : String) (h : chainIn ns t) :
    chainIn ns (s ++ t) := by
  cases ns with
  | nil => trivial
  | cons n ns =>
    obtain ⟨a, b, e, hc⟩ := h
    exact ⟨s ++ a, b, by rw [e]; simp [String.append_assoc], hc⟩

theorem chainIn_cons_in_head {n L : String} {ns : List String} (rest : String)
    (h : strHasSub n L = true) (hrest : chainIn ns rest) :
    chainIn (n :: ns) (L ++ rest) := by
  obtain ⟨a, b, e⟩ := occursAt_of_hasSub h
  exact ⟨a, b ++ rest, by rw [e]; simp [String.append_assoc], chainIn_skip b hrest⟩

theorem injW_ok : ∀ c x, (injW c x).exitCode = 0 := fun _ _ => rfl

theorem injW_sizeStable : SizeStable injW := by
  intro c x y
  by_cases h : c.head? = some 9 <;> simp [injW, h]

/-! ## Frame lemmas: every branch of every pipeline touches, outside the
temporary directory, at most the output path; and the motion pipeline always
creates the output directory. -/

set_option maxHeartbeats 1000000 in
theorem gen_motion_photo_frame (inj : Injector) (photo video outDir tmp : String)
    (fs : FS) (q : String)
    (hq : q ≠ joinPath outDir (basename photo)) (hqt : inDir tmp q = false)
    (hout : inDir tmp (joinPath outDir (basename photo)) = false) :
    ((GenMotionPhoto.gen_motion_photo inj photo video outDir tmp fs).2).read q =
      fs.read q := by
  have htp : inDir tmp (joinPath tmp "temp_image.jpg") = true := inDir_joinPath _ _
  have hxp : inDir tmp (joinPath tmp "motion.xmp") = true := inDir_joinPath _ _
  have hq1 : q ≠ joinPath tmp "temp_image.jpg" := by
    intro h; rw [h, htp] at hqt; exact Bool.noConfusion hqt
  have hq2 : q ≠ joinPath tmp "motion.xmp" := by
    intro h; rw [h, hxp] at hqt; exact Bool.noConfusion hqt
  have h1 : joinPath tmp "temp_image.jpg" ≠ joinPath tmp "motion.xmp" :=
    joinPath_ne_of_ne (by decide)
  have h2 : joinPath tmp "motion.xmp" ≠ joinPath tmp "temp_image.jpg" := h1.symm
  have h3 : joinPath outDir (basename photo) ≠ joinPath tmp "temp_image.jpg" := by
    intro h; rw [h, htp] at hout; exact Bool.noConfusion hout
  have h4 : joinPath outDir (basename photo) ≠ joinPath tmp "motion.xmp" := by
    intro h; rw [h, hxp] at hout; exact Bool.noConfusion hout
  have h3s : joinPath tmp "temp_image.jpg" ≠ joinPath outDir (basename photo) := h3.symm
  have h4s : joinPath tmp "motion.xmp" ≠ joinPath outDir (basename photo) := h4.symm
  rcases hfv : fs.read video with _ | vb
  · simp [GenMotionPhoto.gen_motion_photo, abspath, hfv]
  rcases hfp : fs.read photo with _ | pb
  · simp [GenMotionPhoto.gen_motion_photo, abspath, hfv, hfp, FS.read_removeTree, hqt]
  by_cases he1 : (inj pb (strBytes (GenMotionPhoto.create_xmp_file (List.length pb)
      (List.length vb)))).exitCode = 0
  all_goals by_cases he2 : (inj
    (inj pb (strBytes (GenMotionPhoto.create_xmp_file (List.length pb)
      (List.length vb)))).newContent
    (strBytes (GenMotionPhoto.create_xmp_file
      (List.length (inj pb (strBytes (GenMotionPhoto.create_xmp_file (List.length pb)
        (List.length vb)))).newContent)
      (List.length vb)))).exitCode = 0
  all_goals by_cases hex : (fs.read (joinPath outDir (basename photo))).isSome
  all_goals
    simp [GenMotionPhoto.gen_motion_photo, GenMotionPhoto.apply_metadata, abspath,
      FS.read_write, FS.read_remove, FS.read_removeTree, FS.read_mkdirs, FS.existsFile_eq,
      hfv, hfp, he1, he2, hex, hq, hq1, hq2, hqt, h1, h2, h3, h4, h3s, h4s]
  all_goals
    split_ifs <;>
      simp [FS.read_write, FS.read_remove, FS.read_removeTree, FS.read_mkdirs,
        hq, hq1, hq2, hqt]

set_option maxHeartbeats 1000000 in
theorem gen_ultra_hdr_frame (inj : Injector) (sdr gm out tmp : String)
    (params : HdrParams) (fs : FS) (q : String)
    (hq : q ≠ out) (hqt : inDir tmp q = false)
    (hout : inDir tmp out = false) :
    ((GenUltraHDRPhoto.gen_ultra_hdr inj sdr gm out params tmp fs).2).read q =
      fs.read q := by
  have htp : inDir tmp (joinPath tmp "hdr_base.jpg") = true := inDir_joinPath _ _
  have hxp : inDir tmp (joinPath tmp "ultrahdr.xmp") = true := inDir_joinPath _ _
  have hq1 : q ≠ joinPath tmp "hdr_base.jpg" := by
    intro h; rw [h, htp] at hqt; exact Bool.noConfusion hqt
  have hq2 : q ≠ joinPath tmp "ultrahdr.xmp" := by
    intro h; rw [h, hxp] at hqt; exact Bool.noConfusion hqt
  have h1 : joinPath tmp "hdr_base.jpg" ≠ joinPath tmp "ultrahdr.xmp" :=
    joinPath_ne_of_ne (by decide)
  have h2 : joinPath tmp "ultrahdr.xmp" ≠ joinPath tmp "hdr_base.jpg" := h1.symm
  have h3 : out ≠ joinPath tmp "hdr_base.jpg" := by
    intro h; rw [h, htp] at hout; exact Bool.noConfusion hout
  have h4 : out ≠ joinPath tmp "ultrahdr.xmp" := by
    intro h; rw [h, hxp] at hout; exact Bool.noConfusion hout
  have h3s : joinPath tmp "hdr_base.jpg" ≠ out := h3.symm
  have h4s : joinPath tmp "ultrahdr.xmp" ≠ out := h4.symm
  rcases hfs : fs.read sdr with _ | sb
  · simp [GenUltraHDRPhoto.gen_ultra_hdr, abspath, hfs]
  by_cases hsj : sb.take 2 = [0xff, 0xd8]
  case neg =>
    simp [GenUltraHDRPhoto.gen_ultra_hdr, abspath, hfs, hsj]
  rcases hfg : fs.read gm with _ | gb
  · simp [GenUltraHDRPhoto.gen_ultra_hdr, abspath, hfs, hsj, hfg]
  by_cases hgj : gb.take 2 = [0xff, 0xd8]
  case neg =>
    simp [GenUltraHDRPhoto.gen_ultra_hdr, abspath, hfs, hsj, hfg, hgj]
  by_cases he1 : (inj sb (strBytes (GenUltraHDRPhoto.create_ultrahdr_xmp 0
      (List.length gb) params))).exitCode = 0
  all_goals by_cases he2 : (inj
    (inj sb (strBytes (GenUltraHDRPhoto.create_ultrahdr_xmp 0
      (List.length gb) params))).newContent
    (strBytes (GenUltraHDRPhoto.create_ultrahdr_xmp
      (List.length (inj sb (strBytes (GenUltraHDRPhoto.create_ultrahdr_xmp 0
        (List.length gb) params))).newContent)
      (List.length gb) params))).exitCode = 0
  all_goals by_cases hex : (fs.read out).isSome
  all_goals
    simp [GenUltraHDRPhoto.gen_ultra_hdr, GenUltraHDRPhoto.apply_ultrahdr_metadata, abspath,
      FS.read_write, FS.read_remove, FS.read_removeTree, FS.read_mkdirs, FS.existsFile_eq,
      hfs, hsj, hfg, hgj, he1, he2, hex, hq, hq1, hq2, hqt, h1, h2, h3, h4, h3s, h4s]
  all_goals
    split_ifs <;>
      simp [FS.read_write, FS.read_remove, FS.read_removeTree, FS.read_mkdirs,
        hq, hq1, hq2, hqt]

set_option maxHeartbeats 1000000 in
theorem gen_hdr_motion_photo_frame (inj : Injector) (sdr gm video out tmp : String)
    (params : HdrParams) (fs : FS) (q : String)
    (hq : q ≠ out) (hqt : inDir tmp q = false)
    (hout : inDir tmp out = false) :
    ((GenUltraHdrMotionPhoto.gen_hdr_motion_photo inj sdr gm video out params tmp fs).2).read
      q = fs.read q := by
  have htp : inDir tmp (joinPath tmp "base.jpg") = true := inDir_joinPath _ _
  have hxp : inDir tmp (joinPath tmp "combined.xmp") = true := inDir_joinPath _ _
  have hq1 : q ≠ joinPath tmp "base.jpg" := by
    intro h; rw [h, htp] at hqt; exact Bool.noConfusion hqt
  have hq2 : q ≠ joinPath tmp "combined.xmp" := by
    intro h; rw [h, hxp] at hqt; exact Bool.noConfusion hqt
  have h1 : joinPath tmp "base.jpg" ≠ joinPath tmp "combined.xmp" :=
    joinPath_ne_of_ne (by decide)
  have h2 : joinPath tmp "combined.xmp" ≠ joinPath tmp "base.jpg" := h1.symm
  have h3 : out ≠ joinPath tmp "base.jpg" := by
    intro h; rw [h, htp] at hout; exact Bool.noConfusion hout
  have h4 : out ≠ joinPath tmp "combined.xmp" := by
    intro h; rw [h, hxp] at hout; exact Bool.noConfusion hout
  have h3s : joinPath tmp "base.jpg" ≠ out := h3.symm
  have h4s : joinPath tmp "combined.xmp" ≠ out := h4.symm
  rcases hfg : fs.read gm with _ | gb
  · simp [GenUltraHdrMotionPhoto.gen_hdr_motion_photo, hfg]
  rcases hfv : fs.read video with _ | vb
  · simp [GenUltraHdrMotionPhoto.gen_hdr_motion_photo, hfg, hfv]
  rcases hfs : fs.read sdr with _ | sb
  · simp [GenUltraHdrMotionPhoto.gen_hdr_motion_photo, hfg, hfv, hfs,
      FS.read_removeTree, hqt]
  by_cases he1 : (inj sb (strBytes (GenUltraHdrMotionPhoto.create_combined_xmp 0
      (List.length gb) (List.length vb) params))).exitCode = 0
  all_goals by_cases he2 : (inj
    (inj sb (strBytes (GenUltraHdrMotionPhoto.create_combined_xmp 0
      (List.length gb) (List.length vb) params))).newContent
    (strBytes (GenUltraHdrMotionPhoto.create_combined_xmp
      (List.length (inj sb (strBytes (GenUltraHdrMotionPhoto.create_combined_xmp 0
        (List.length gb) (List.length vb) params))).newContent)
      (List.length gb) (List.length vb) params))).exitCode = 0
  all_goals by_cases hex : (fs.read out).isSome
  all_goals
    simp [GenUltraHdrMotionPhoto.gen_hdr_motion_photo,
      GenUltraHdrMotionPhoto.apply_metadata, abspath,
      FS.read_write, FS.read_remove, FS.read_removeTree, FS.read_mkdirs, FS.existsFile_eq,
      hfg, hfv, hfs, he1, he2, hex, hq, hq1, hq2, hqt, h1, h2, h3, h4, h3s, h4s]
  all_goals
    split_ifs <;>
      simp [FS.read_write, FS.read_remove, FS.read_removeTree, FS.read_mkdirs,
        hq, hq1, hq2, hqt]

set_option maxHeartbeats 1000000 in
theorem gen_motion_photo_dirs (inj : Injector) (photo video outDir tmp : String)
    (fs : FS) :
    ((GenMotionPhoto.gen_motion_photo inj photo video outDir tmp fs).2).dirs =
      outDir :: fs.dirs := by
  have h1 : joinPath tmp "temp_image.jpg" ≠ joinPath tmp "motion.xmp" :=
    joinPath_ne_of_ne (by decide)
  have h2 : joinPath tmp "motion.xmp" ≠ joinPath tmp "temp_image.jpg" := h1.symm
  rcases hfv : fs.read video with _ | vb
  · simp [GenMotionPhoto.gen_motion_photo, abspath, hfv]
  rcases hfp : fs.read photo with _ | pb
  · simp [GenMotionPhoto.gen_motion_photo, abspath, hfv, hfp]
  by_cases he1 : (inj pb (strBytes (GenMotionPhoto.create_xmp_file (List.length pb)
      (List.length vb)))).exitCode = 0
  all_goals by_cases he2 : (inj
    (inj pb (strBytes (GenMotionPhoto.create_xmp_file (List.length pb)
      (List.length vb)))).newContent
    (strBytes (GenMotionPhoto.create_xmp_file
      (List.length (inj pb (strBytes (GenMotionPhoto.create_xmp_file (List.length pb)
        (List.length vb)))).newContent)
      (List.length vb)))).exitCode = 0
  all_goals
    simp [GenMotionPhoto.gen_motion_photo, GenMotionPhoto.apply_metadata, abspath,
      FS.read_write, FS.read_mkdirs, FS.existsFile_eq,
      hfv, hfp, he1, he2, h1, h2]
  all_goals
    repeat' (split_ifs <;>
      simp_all [FS.read_write, FS.read_remove, FS.read_removeTree, FS.read_mkdirs,
        FS.existsFile_eq])

/-! ## Claim theorems -/

set_option maxRecDepth 16384 in
/-- **C1**: the claim states that the final (second) descriptor build declares
as the Primary segment's `Item:Length` exactly the byte size measured after
the first injection.  The motion and combined pipelines do interpolate the
measured size, but `GenUltraHDRPhoto.create_ultrahdr_xmp` hard-codes
`<Item:Length>0</Item:Length>` for the Primary entry and never uses its
`image_length` argument, contradicting the call-site comment (which says the
second build "corrects the true Primary length") — the code, not the claim,
is at fault.  This theorem evaluates the code at the failing point: the
gain-map descriptor is entirely independent of the `image_length` argument,
and always contains the hard-coded Primary length `0`. -/
theorem c1_ultrahdr_primary_length_hardcoded_zero (n m g : Nat) (p : HdrParams) :
    GenUltraHDRPhoto.create_ultrahdr_xmp n g p = GenUltraHDRPhoto.create_ultrahdr_xmp m g p ∧
    occursAt "<Item:Semantic>Primary</Item:Semantic>\n      <Item:Length>0</Item:Length>"
      (GenUltraHDRPhoto.create_ultrahdr_xmp n g p) := by
  constructor
  · rfl
  · simp only [GenUltraHDRPhoto.create_ultrahdr_xmp, String.append_assoc]
    apply occursAt_skip
    apply occursAt_skip
    apply occursAt_skip
    apply occursAt_skip
    apply occursAt_skip
    apply occursAt_skip
    apply occursAt_skip
    apply occursAt_skip
    apply occursAt_skip
    apply occursAt_skip
    exact occursAt_in_head _ (by decide)

set_option maxRecDepth 16384 in
/-- **C6** (amended): in the gain-map variant every tone-mapping parameter is
serialized with exactly its supplied value, falling back to the defaults
gainMapMin=0.0, gainMapMax=1.0, gamma=1.0, hdrCapacityMin=0.0,
hdrCapacityMax=2.0 when absent; in the combined variant the same holds for
gainMapMin=0.0, gainMapMax=2.1, gamma=1.0, hdrCapacityMax=2.1, but there is
no `hdrCapacityMin` parameter at all: a supplied `hdrCapacityMin` is ignored
(the descriptor is unchanged) and no HDRCapacityMin tag is emitted.  Each
conjunct exhibits the serialized tag `<hdrgm:X>value</hdrgm:X>` inside the
produced descriptor, where `value` is the supplied value if present and the
default otherwise. -/
theorem c6_tone_mapping_params_sparse_override (n g a b c : Nat) (p : HdrParams)
    (v : Option String) :
    occursAt ("<hdrgm:GainMapMin>" ++ (p.gainMapMin.getD "0.0" ++ "</hdrgm:GainMapMin>"))
      (GenUltraHDRPhoto.create_ultrahdr_xmp n g p) ∧
    occursAt ("<hdrgm:GainMapMax>" ++ (p.gainMapMax.getD "1.0" ++ "</hdrgm:GainMapMax>"))
      (GenUltraHDRPhoto.create_ultrahdr_xmp n g p) ∧
    occursAt ("<hdrgm:Gamma>" ++ (p.gamma.getD "1.0" ++ "</hdrgm:Gamma>"))
      (GenUltraHDRPhoto.create_ultrahdr_xmp n g p) ∧
    occursAt ("<hdrgm:HDRCapacityMin>" ++ (p.hdrCapacityMin.getD "0.0" ++ "</hdrgm:HDRCapacityMin>"))
      (GenUltraHDRPhoto.create_ultrahdr_xmp n g p) ∧
    occursAt ("<hdrgm:HDRCapacityMax>" ++ (p.hdrCapacityMax.getD "2.0" ++ "</hdrgm:HDRCapacityMax>"))
      (GenUltraHDRPhoto.create_ultrahdr_xmp n g p) ∧
    occursAt ("<hdrgm:GainMapMin>" ++ (p.gainMapMin.getD "0.0" ++ "</hdrgm:GainMapMin>"))
      (GenUltraHdrMotionPhoto.create_combined_xmp a b c p) ∧
    occursAt ("<hdrgm:GainMapMax>" ++ (p.gainMapMax.getD "2.1" ++ "</hdrgm:GainMapMax>"))
      (GenUltraHdrMotionPhoto.create_combined_xmp a b c p) ∧
    occursAt ("<hdrgm:Gamma>" ++ (p.gamma.getD "1.0" ++ "</hdrgm:Gamma>"))
      (GenUltraHdrMotionPhoto.create_combined_xmp a b c p) ∧
    occursAt ("<hdrgm:HDRCapacityMax>" ++ (p.hdrCapacityMax.getD "2.1" ++ "</hdrgm:HDRCapacityMax>"))
      (GenUltraHdrMotionPhoto.create_combined_xmp a b c p) ∧
    GenUltraHdrMotionPhoto.create_combined_xmp a b c
        ⟨p.gainMapMin, p.gainMapMax, p.gamma, v, p.hdrCapacityMax⟩ =
      GenUltraHdrMotionPhoto.create_combined_xmp a b c p := by
  refine ⟨?_, ?_, ?_, ?_, ?_, ?_, ?_, ?_, ?_, rfl⟩
  · simp only [GenUltraHDRPhoto.create_ultrahdr_xmp, String.append_assoc]
    refine occursAt_span _ (trailsWith_of_check ?_) (leadsWith_of_check ?_) <;> decide
  · simp only [GenUltraHDRPhoto.create_ultrahdr_xmp, String.append_assoc]
    apply occursAt_skip
    apply occursAt_skip
    refine occursAt_span _ (trailsWith_of_check ?_) (leadsWith_of_check ?_) <;> decide
  · simp only [GenUltraHDRPhoto.create_ultrahdr_xmp, String.append_assoc]
    apply occursAt_skip
    apply occursAt_skip
    apply occursAt_skip
    apply occursAt_skip
    refine occursAt_span _ (trailsWith_of_check ?_) (leadsWith_of_check ?_) <;> decide
  · simp only [GenUltraHDRPhoto.create_ultrahdr_xmp, String.append_assoc]
    apply occursAt_skip
    apply occursAt_skip
    apply occursAt_skip
    apply occursAt_skip
    apply occursAt_skip
    apply occursAt_skip
    refine occursAt_span _ (trailsWith_of_check ?_) (leadsWith_of_check ?_) <;> decide
  · simp only [GenUltraHDRPhoto.create_ultrahdr_xmp, String.append_assoc]
    apply occursAt_skip
    apply occursAt_skip
    apply occursAt_skip
    apply occursAt_skip
    apply occursAt_skip
    apply occursAt_skip
    apply occursAt_skip
    apply occursAt_skip
    refine occursAt_span _ (trailsWith_of_check ?_) (leadsWith_of_check ?_) <;> decide
  · simp only [GenUltraHdrMotionPhoto.create_combined_xmp, String.append_assoc]
    refine occursAt_span _ (trailsWith_of_check ?_) (leadsWith_of_check ?_) <;> decide
  · simp only [GenUltraHdrMotionPhoto.create_combined_xmp, String.append_assoc]
    apply occursAt_skip
    apply occursAt_skip
    refine occursAt_span _ (trailsWith_of_check ?_) (leadsWith_of_check ?_) <;> decide
  · simp only [GenUltraHdrMotionPhoto.create_combined_xmp, String.append_assoc]
    apply occursAt_skip
    apply occursAt_skip
    apply occursAt_skip
    apply occursAt_skip
    refine occursAt_span _ (trailsWith_of_check ?_) (leadsWith_of_check ?_) <;> decide
  · simp only [GenUltraHdrMotionPhoto.create_combined_xmp, String.append_assoc]
    apply occursAt_skip
    apply occursAt_skip
    apply occursAt_skip
    apply occursAt_skip
    apply occursAt_skip
    apply occursAt_skip
    refine occursAt_span _ (trailsWith_of_check ?_) (leadsWith_of_check ?_) <;> decide

set_option maxRecDepth 16384 in
/-- **C6 counterexample**: the claim as stated says `hdrCapacityMin` falls
back to its default 0.0 in the combined variant and that a supplied value is
serialized exactly.  Both fail: supplying `hdrCapacityMin = 9.9` to the
combined builder leaves the descriptor unchanged, and the default descriptor
contains no `HDRCapacityMin` text at all. -/
theorem c6_combined_ignores_hdr_capacity_min :
    GenUltraHdrMotionPhoto.create_combined_xmp 100 200 300
        ⟨none, none, none, some "9.9", none⟩ =
      GenUltraHdrMotionPhoto.create_combined_xmp 100 200 300
        ⟨none, none, none, none, none⟩ ∧
    strHasSub "HDRCapacityMin"
      (GenUltraHdrMotionPhoto.create_combined_xmp 100 200 300
        ⟨none, none, none, none, none⟩) = false ∧
    strHasSub "9.9"
      (GenUltraHdrMotionPhoto.create_combined_xmp 100 200 300
        ⟨none, none, none, some "9.9", none⟩) = false := by
  refine ⟨rfl, ?_, ?_⟩ <;> decide

/-- **C7** (amended): the injector invocation is treated as a failure exactly
when its exit code is non-zero — the captured error stream plays no part in
the success test — and the failure surfaced carries the captured stderr
text.  All three per-module wrappers behave identically. -/
theorem c7_failure_iff_nonzero_exit (inj : Injector) (fs : FS) (fp xp : String)
    (c x : Bytes) (hf : fs.read fp = some c) (hx : fs.read xp = some x) :
    ((GenMotionPhoto.apply_metadata inj fs fp xp).1 = .ok () ↔ (inj c x).exitCode = 0) ∧
    ((inj c x).exitCode ≠ 0 →
      (GenMotionPhoto.apply_metadata inj fs fp xp).1 =
        .error (.calledProcessError (inj c x).errText)) ∧
    GenUltraHDRPhoto.apply_ultrahdr_metadata inj fs fp xp =
      GenMotionPhoto.apply_metadata inj fs fp xp ∧
    GenUltraHdrMotionPhoto.apply_metadata inj fs fp xp =
      GenMotionPhoto.apply_metadata inj fs fp xp := by
  refine ⟨?_, ?_, rfl, rfl⟩ <;>
    by_cases he : (inj c x).exitCode = 0 <;>
      simp [GenMotionPhoto.apply_metadata, hf, hx, he]

/-- **C7 counterexample**: the claim as stated also calls an invocation a
failure when the captured error stream is non-empty.  The code does not: with
`injWarn` (exit code 0, non-empty stderr) the wrapper returns success. -/
theorem c7_nonempty_stderr_is_success :
    (GenMotionPhoto.apply_metadata injWarn
        ⟨[("/in/p.jpg", [1]), ("/t/motion.xmp", [2])], []⟩
        "/in/p.jpg" "/t/motion.xmp").1 = .ok () ∧
    (injWarn [1] [2]).errText ≠ "" := by
  exact ⟨rfl, by decide⟩

theorem dropSub_split (n : List Char) :
    ∀ h r, dropSub n h = some r → ∃ a, h = a ++ n ++ r := by
  intro h
  induction h with
  | nil =>
    intro r hr
    by_cases hn : n.isEmpty
    · simp only [dropSub, hn, if_pos] at hr
      obtain rfl := Option.some.inj hr
      exact ⟨[], by simp [List.isEmpty_iff.mp hn]⟩
    · simp [dropSub, hn] at hr
  | cons c cs ih =>
    intro r hr
    by_cases hp : n.isPrefixOf (c :: cs)
    · simp only [dropSub, hp, if_pos] at hr
      obtain rfl := Option.some.inj hr
      exact ⟨[], by simpa using isPrefixOf_eq_append n (c :: cs) hp⟩
    · simp only [dropSub, hp, if_neg] at hr
      obtain ⟨a, e⟩ := ih r hr
      exact ⟨c :: a, by simp [e]⟩

theorem chainIn_of_chainSub : ∀ (ns : List String) (s : String),
    chainSub (ns.map String.data) s.data = true → chainIn ns s := by
  intro ns
  induction ns with
  | nil => intro s _; trivial
  | cons n ns ih =>
    intro s hc
    simp only [List.map, chainSub] at hc
    rcases hd : dropSub n.data s.data with _ | r
    · rw [hd] at hc; exact absurd hc (by simp)
    · rw [hd] at hc
      obtain ⟨a, e⟩ := dropSub_split n.data s.data r hd
      refine ⟨⟨a⟩, ⟨r⟩, String.ext ?_, ih ⟨r⟩ hc⟩
      rw [String.data_append, String.data_append]
      exact e

theorem chainIn_extend {ns : List String} :
    ∀ {s : String} (t : String), chainIn ns s → chainIn ns (s ++ t) := by
  induction ns with
  | nil => intro s t _; trivial
  | cons n ns ih =>
    intro s t h
    obtain ⟨a, b, e, hc⟩ := h
    exact ⟨a, b ++ t, by rw [e]; simp [String.append_assoc], ih t hc⟩

theorem chainIn_all_in_head {ns : List String} {L : String} (rest : String)
    (h : chainSub (ns.map String.data) L.data = true) : chainIn ns (L ++ rest) :=
  chainIn_extend rest (chainIn_of_chainSub ns L h)

/-- **C7 witness**: a concrete failing run — `injFail` exits 1 with stderr
"exiftool: write failed" — surfaces `CalledProcessError` carrying that text. -/
theorem c7_failure_iff_nonzero_exit_witness :
    (GenMotionPhoto.apply_metadata injFail
        ⟨[("/in/p.jpg", [1]), ("/t/motion.xmp", [2])], []⟩
        "/in/p.jpg" "/t/motion.xmp").1 =
      .error (.calledProcessError (injFail [1] [2]).errText) :=
  (c7_failure_iff_nonzero_exit injFail
    ⟨[("/in/p.jpg", [1]), ("/t/motion.xmp", [2])], []⟩
    "/in/p.jpg" "/t/motion.xmp" [1] [2] rfl rfl).2.1 (by decide)

set_option maxRecDepth 16384 in
set_option maxHeartbeats 1000000 in
/-- **C3**: in all three pipelines, the descriptor's Directory lists the
segments in the fixed order Primary, then GainMap (if present), then
MotionPhoto (if present) — for every choice of lengths and parameters, so in
both the placeholder and the converged build — and the physically assembled
file is the processed primary image followed by the gain map (if present)
followed by the video (if present), in that order.  The role played by each
input is fixed by its parameter position, so the order never depends on the
call-site argument values. -/
theorem c3_segment_order (inj : Injector)
    (photo video sdr gm outDir outU outC tmp : String) (params : HdrParams)
    (fs : FS) (pb vb sb gb : Bytes)
    (hp : fs.read photo = some pb) (hv : fs.read video = some vb)
    (hs : fs.read sdr = some sb) (hg : fs.read gm = some gb)
    (hsj : sb.take 2 = [0xff, 0xd8]) (hgj : gb.take 2 = [0xff, 0xd8])
    (hok : ∀ c x, (inj c x).exitCode = 0)
    (houtM : inDir tmp (joinPath outDir (basename photo)) = false)
    (houtU : inDir tmp outU = false) (houtC : inDir tmp outC = false)
    (hvt : inDir tmp video = false) (hgt : inDir tmp gm = false)
    (hvoM : video ≠ joinPath outDir (basename photo))
    (hgoU : gm ≠ outU) (hgoC : gm ≠ outC) (hvoC : video ≠ outC) :
    (∀ i j : Nat, chainIn [semTag "Primary", semTag "MotionPhoto"]
      (GenMotionPhoto.create_xmp_file i j)) ∧
    (∀ (i j : Nat) (q : HdrParams), chainIn [semTag "Primary", semTag "GainMap"]
      (GenUltraHDRPhoto.create_ultrahdr_xmp i j q)) ∧
    (∀ (i j k : Nat) (q : HdrParams),
      chainIn [semTag "Primary", semTag "GainMap", semTag "MotionPhoto"]
        (GenUltraHdrMotionPhoto.create_combined_xmp i j k q)) ∧
    (GenMotionPhoto.gen_motion_photo inj photo video outDir tmp fs).2.read
        (joinPath outDir (basename photo)) = some (motionPrimary inj pb vb ++ vb) ∧
    (GenUltraHDRPhoto.gen_ultra_hdr inj sdr gm outU params tmp fs).2.read outU =
      some (ultraPrimary inj sb gb params ++ gb) ∧
    (GenUltraHdrMotionPhoto.gen_hdr_motion_photo inj sdr gm video outC params tmp fs).2.read
        outC = some (combinedPrimary inj sb gb vb params ++ (gb ++ vb)) := by
  refine ⟨?_, ?_, ?_, ?_, ?_, ?_⟩
  · intro i j
    simp only [GenMotionPhoto.create_xmp_file, String.append_assoc]
    apply chainIn_cons_in_head _ (by decide)
    apply chainIn_skip
    apply chainIn_cons_in_head _ (by decide)
    exact chainIn_nil _
  · intro i j q
    simp only [GenUltraHDRPhoto.create_ultrahdr_xmp, String.append_assoc]
    apply chainIn_skip
    apply chainIn_skip
    apply chainIn_skip
    apply chainIn_skip
    apply chainIn_skip
    apply chainIn_skip
    apply chainIn_skip
    apply chainIn_skip
    apply chainIn_skip
    apply chainIn_skip
    apply chainIn_all_in_head _ (by decide)
  · intro i j k q
    simp only [GenUltraHdrMotionPhoto.create_combined_xmp, String.append_assoc]
    apply chainIn_skip
    apply chainIn_skip
    apply chainIn_skip
    apply chainIn_skip
    apply chainIn_skip
    apply chainIn_skip
    apply chainIn_skip
    apply chainIn_skip
    apply chainIn_cons_in_head _ (by decide)
    apply chainIn_skip
    apply chainIn_cons_in_head _ (by decide)
    apply chainIn_skip
    apply chainIn_cons_in_head _ (by decide)
    exact chainIn_nil _
  · exact (gen_motion_photo_run inj photo video outDir tmp fs pb vb hp hv hok
      houtM hvt hvoM).2.1
  · exact (gen_ultra_hdr_run inj sdr gm outU tmp params fs sb gb hs hg hsj hgj hok
      houtU hgt hgoU).2.1
  · exact (gen_hdr_motion_photo_run inj sdr gm video outC tmp params fs sb gb vb
      hs hg hv hok houtC hgt hvt hgoC hvoC).2.1

/-- **C3 witness**: concrete instantiation (header-prepending injector `injW`,
the concrete inputs of `wfs`): the assembled motion photo at the joined output
path is the processed primary followed by the video bytes. -/
theorem c3_segment_order_witness :
    (GenMotionPhoto.gen_motion_photo injW "/in/p.jpg" "/in/v.mp4" "/out" "/t" wfs).2.read
        (joinPath "/out" (basename "/in/p.jpg")) =
      some (motionPrimary injW [0xff, 0xd8, 1] [7, 8, 9, 10, 11] ++ [7, 8, 9, 10, 11]) :=
  (c3_segment_order injW "/in/p.jpg" "/in/v.mp4" "/in/s.jpg" "/in/g.jpg"
    "/out" "/out/u.jpg" "/out/c.jpg" "/t" ⟨none, none, none, none, none⟩ wfs
    [0xff, 0xd8, 1] [7, 8, 9, 10, 11] [0xff, 0xd8, 2] [0xff, 0xd8, 3, 4]
    (by decide) (by decide) (by decide) (by decide) (by decide) (by decide)
    injW_ok (by decide) (by decide) (by decide) (by decide) (by decide)
    (by decide) (by decide) (by decide) (by decide)).2.2.2.1

set_option maxRecDepth 16384 in
set_option maxHeartbeats 1000000 in
/-- **C2**: for every successfully produced container, under the design's
size-stability assumption on the external injector (spec §4.2: the second
injection does not change the file's byte length), each pipeline's output is
exactly the processed primary followed by the appended segments with no gaps
or padding; the converged descriptor declares for each non-Primary segment
exactly the byte length of the data appended for it (the gain-map and video
lengths measured from the input files, which are the exact bytes appended);
and the total output size is the converged Primary length plus the sum of
the appended segment lengths. -/
theorem c2_length_invariant (inj : Injector)
    (photo video sdr gm outDir outU outC tmp : String) (params : HdrParams)
    (fs : FS) (pb vb sb gb : Bytes)
    (hp : fs.read photo = some pb) (hv : fs.read video = some vb)
    (hs : fs.read sdr = some sb) (hg : fs.read gm = some gb)
    (hsj : sb.take 2 = [0xff, 0xd8]) (hgj : gb.take 2 = [0xff, 0xd8])
    (hok : ∀ c x, (inj c x).exitCode = 0) (hst : SizeStable inj)
    (houtM : inDir tmp (joinPath outDir (basename photo)) = false)
    (houtU : inDir tmp outU = false) (houtC : inDir tmp outC = false)
    (hvt : inDir tmp video = false) (hgt : inDir tmp gm = false)
    (hvoM : video ≠ joinPath outDir (basename photo))
    (hgoU : gm ≠ outU) (hgoC : gm ≠ outC) (hvoC : video ≠ outC) :
    (GenMotionPhoto.gen_motion_photo inj photo video outDir tmp fs).1 = .ok () ∧
    (GenMotionPhoto.gen_motion_photo inj photo video outDir tmp fs).2.read
        (joinPath outDir (basename photo)) = some (motionPrimary inj pb vb ++ vb) ∧
    (motionPrimary inj pb vb ++ vb).length = motionConverged inj pb vb + vb.length ∧
    declaresLength (GenMotionPhoto.create_xmp_file (motionConverged inj pb vb) vb.length)
      "<Item:Semantic>MotionPhoto</Item:Semantic>\n      <Item:Length>" vb.length ∧
    (GenUltraHDRPhoto.gen_ultra_hdr inj sdr gm outU params tmp fs).1 = .ok () ∧
    (GenUltraHDRPhoto.gen_ultra_hdr inj sdr gm outU params tmp fs).2.read outU =
      some (ultraPrimary inj sb gb params ++ gb) ∧
    (ultraPrimary inj sb gb params ++ gb).length =
      ultraConverged inj sb gb params + gb.length ∧
    declaresLength
      (GenUltraHDRPhoto.create_ultrahdr_xmp (ultraConverged inj sb gb params)
        gb.length params)
      "<Item:Semantic>GainMap</Item:Semantic>\n      <Item:Length>" gb.length ∧
    (GenUltraHdrMotionPhoto.gen_hdr_motion_photo inj sdr gm video outC params tmp fs).1 =
      .ok () ∧
    (GenUltraHdrMotionPhoto.gen_hdr_motion_photo inj sdr gm video outC params tmp fs).2.read
        outC = some (combinedPrimary inj sb gb vb params ++ (gb ++ vb)) ∧
    (combinedPrimary inj sb gb vb params ++ (gb ++ vb)).length =
      combinedConverged inj sb gb vb params + (gb.length + vb.length) ∧
    declaresLength
      (GenUltraHdrMotionPhoto.create_combined_xmp (combinedConverged inj sb gb vb params)
        gb.length vb.length params)
      "<Item:Semantic>GainMap</Item:Semantic>\n      <Item:Length>" gb.length ∧
    declaresLength
      (GenUltraHdrMotionPhoto.create_combined_xmp (combinedConverged inj sb gb vb params)
        gb.length vb.length params)
      "<Item:Semantic>MotionPhoto</Item:Semantic>\n      <Item:Length>" vb.length := by
  have hm := gen_motion_photo_run inj photo video outDir tmp fs pb vb hp hv hok
    houtM hvt hvoM
  have hu := gen_ultra_hdr_run inj sdr gm outU tmp params fs sb gb hs hg hsj hgj hok
    houtU hgt hgoU
  have hc := gen_hdr_motion_photo_run inj sdr gm video outC tmp params fs sb gb vb
    hs hg hv hok houtC hgt hvt hgoC hvoC
  refine ⟨hm.1, hm.2.1, ?_, ?_, hu.1, hu.2.1, ?_, ?_, hc.1, hc.2.1, ?_, ?_, ?_⟩
  · simp only [motionPrimary, motionConverged, List.length_append]
    rw [hst]
  · simp only [declaresLength, GenMotionPhoto.create_xmp_file, String.append_assoc]
    apply occursAt_skip
    apply occursAt_skip
    exact occursAt_span_end (trailsWith_of_check (by decide)) (leadsWith_of_check (by decide))
  · simp only [ultraPrimary, ultraConverged, List.length_append]
    rw [hst]
  · simp only [declaresLength, GenUltraHDRPhoto.create_ultrahdr_xmp, String.append_assoc]
    apply occursAt_skip
    apply occursAt_skip
    apply occursAt_skip
    apply occursAt_skip
    apply occursAt_skip
    apply occursAt_skip
    apply occursAt_skip
    apply occursAt_skip
    apply occursAt_skip
    apply occursAt_skip
    exact occursAt_span_end (trailsWith_of_check (by decide)) (leadsWith_of_check (by decide))
  · simp only [combinedPrimary, combinedConverged, List.length_append]
    rw [hst]
  · simp only [declaresLength, GenUltraHdrMotionPhoto.create_combined_xmp,
      String.append_assoc]
    apply occursAt_skip
    apply occursAt_skip
    apply occursAt_skip
    apply occursAt_skip
    apply occursAt_skip
    apply occursAt_skip
    apply occursAt_skip
    apply occursAt_skip
    apply occursAt_skip
    apply occursAt_skip
    refine occursAt_span _ (trailsWith_of_check ?_) (leadsWith_of_check ?_) <;> decide
  · simp only [declaresLength, GenUltraHdrMotionPhoto.create_combined_xmp,
      String.append_assoc]
    apply occursAt_skip
    apply occursAt_skip
    apply occursAt_skip
    apply occursAt_skip
    apply occursAt_skip
    apply occursAt_skip
    apply occursAt_skip
    apply occursAt_skip
    apply occursAt_skip
    apply occursAt_skip
    apply occursAt_skip
    apply occursAt_skip
    exact occursAt_span_end (trailsWith_of_check (by decide)) (leadsWith_of_check (by decide))

/-- **C2 witness**: with the size-stable injector `injW` and the concrete
inputs of `wfs`, the motion container's total size is the converged primary
length plus the video length. -/
theorem c2_length_invariant_witness :
    (motionPrimary injW [0xff, 0xd8, 1] [7, 8, 9, 10, 11] ++ [7, 8, 9, 10, 11]).length =
      motionConverged injW [0xff, 0xd8, 1] [7, 8, 9, 10, 11] +
        ([7, 8, 9, 10, 11] : Bytes).length :=
  (c2_length_invariant injW "/in/p.jpg" "/in/v.mp4" "/in/s.jpg" "/in/g.jpg"
    "/out" "/out/u.jpg" "/out/c.jpg" "/t" ⟨none, none, none, none, none⟩ wfs
    [0xff, 0xd8, 1] [7, 8, 9, 10, 11] [0xff, 0xd8, 2] [0xff, 0xd8, 3, 4]
    (by decide) (by decide) (by decide) (by decide) (by decide) (by decide)
    injW_ok injW_sizeStable (by decide) (by decide) (by decide) (by decide)
    (by decide) (by decide) (by decide) (by decide) (by decide)).2.2.1

set_option maxHeartbeats 1000000 in
/-- **C8**: finalization deletes any pre-existing file at the output path and
moves the processed primary into place, so the produced container's content
is determined solely by the run's inputs: two runs over initial filesystems
that agree on the input files — but may hold anything (or nothing) at the
output path — produce identical output content, namely the processed primary
followed by the appended segments, with no residual bytes.  Shown for the
two pipelines cited (motion and combined). -/
theorem c8_overwrite_semantics (inj : Injector)
    (photo video sdr gm outDir outC tmp : String) (params : HdrParams)
    (fs1 fs2 : FS) (pb vb sb gb : Bytes)
    (hp1 : fs1.read photo = some pb) (hv1 : fs1.read video = some vb)
    (hp2 : fs2.read photo = some pb) (hv2 : fs2.read video = some vb)
    (hs1 : fs1.read sdr = some sb) (hg1 : fs1.read gm = some gb)
    (hs2 : fs2.read sdr = some sb) (hg2 : fs2.read gm = some gb)
    (hok : ∀ c x, (inj c x).exitCode = 0)
    (houtM : inDir tmp (joinPath outDir (basename photo)) = false)
    (houtC : inDir tmp outC = false)
    (hvt : inDir tmp video = false) (hgt : inDir tmp gm = false)
    (hvoM : video ≠ joinPath outDir (basename photo))
    (hgoC : gm ≠ outC) (hvoC : video ≠ outC) :
    (GenMotionPhoto.gen_motion_photo inj photo video outDir tmp fs1).2.read
        (joinPath outDir (basename photo)) =
      (GenMotionPhoto.gen_motion_photo inj photo video outDir tmp fs2).2.read
        (joinPath outDir (basename photo)) ∧
    (GenMotionPhoto.gen_motion_photo inj photo video outDir tmp fs1).2.read
        (joinPath outDir (basename photo)) = some (motionPrimary inj pb vb ++ vb) ∧
    (GenUltraHdrMotionPhoto.gen_hdr_motion_photo inj sdr gm video outC params tmp fs1).2.read
        outC =
      (GenUltraHdrMotionPhoto.gen_hdr_motion_photo inj sdr gm video outC params tmp fs2).2.read
        outC ∧
    (GenUltraHdrMotionPhoto.gen_hdr_motion_photo inj sdr gm video outC params tmp fs1).2.read
        outC = some (combinedPrimary inj sb gb vb params ++ (gb ++ vb)) := by
  have hm1 := (gen_motion_photo_run inj photo video outDir tmp fs1 pb vb hp1 hv1 hok
    houtM hvt hvoM).2.1
  have hm2 := (gen_motion_photo_run inj photo video outDir tmp fs2 pb vb hp2 hv2 hok
    houtM hvt hvoM).2.1
  have hc1 := (gen_hdr_motion_photo_run inj sdr gm video outC tmp params fs1 sb gb vb
    hs1 hg1 hv1 hok houtC hgt hvt hgoC hvoC).2.1
  have hc2 := (gen_hdr_motion_photo_run inj sdr gm video outC tmp params fs2 sb gb vb
    hs2 hg2 hv2 hok houtC hgt hvt hgoC hvoC).2.1
  exact ⟨hm1.trans hm2.symm, hm1, hc1.trans hc2.symm, hc1⟩

/-- **C8 witness**: running the motion pipeline over a filesystem already
holding stale bytes at the output path yields the same output content as
running it over one without them. -/
theorem c8_overwrite_semantics_witness :
    (GenMotionPhoto.gen_motion_photo injW "/in/p.jpg" "/in/v.mp4" "/out" "/t"
        ⟨("/out/p.jpg", [0xde, 0xad, 0xbe, 0xef]) :: wfs.files, []⟩).2.read
        (joinPath "/out" (basename "/in/p.jpg")) =
      (GenMotionPhoto.gen_motion_photo injW "/in/p.jpg" "/in/v.mp4" "/out" "/t"
        wfs).2.read (joinPath "/out" (basename "/in/p.jpg")) :=
  (c8_overwrite_semantics injW "/in/p.jpg" "/in/v.mp4" "/in/s.jpg" "/in/g.jpg"
    "/out" "/out/c.jpg" "/t" ⟨none, none, none, none, none⟩
    ⟨("/out/p.jpg", [0xde, 0xad, 0xbe, 0xef]) :: wfs.files, []⟩ wfs
    [0xff, 0xd8, 1] [7, 8, 9, 10, 11] [0xff, 0xd8, 2] [0xff, 0xd8, 3, 4]
    (by decide) (by decide) (by decide) (by decide) (by decide) (by decide)
    (by decide) (by decide) injW_ok (by decide) (by decide) (by decide)
    (by decide) (by decide) (by decide) (by decide)).1

/-- **C9**: the motion-photo pipeline takes an output directory (the other
two pipelines take full output file paths — see the signatures of
`gen_ultra_hdr` and `gen_hdr_motion_photo`): on success it writes the
container to `output_dir` joined with the basename of the photo path, and on
every invocation — any injector, any initial filesystem, any outcome — it
records the creation of `output_dir` (`os.makedirs(output_dir,
exist_ok=True)`, which also creates missing parents). -/
theorem c9_motion_output_location (inj : Injector) (photo video outDir tmp : String)
    (fs : FS) (pb vb : Bytes)
    (hp : fs.read photo = some pb) (hv : fs.read video = some vb)
    (hok : ∀ c x, (inj c x).exitCode = 0)
    (houtM : inDir tmp (joinPath outDir (basename photo)) = false)
    (hvt : inDir tmp video = false)
    (hvoM : video ≠ joinPath outDir (basename photo)) :
    (GenMotionPhoto.gen_motion_photo inj photo video outDir tmp fs).1 = .ok () ∧
    (GenMotionPhoto.gen_motion_photo inj photo video outDir tmp fs).2.read
        (abspath (joinPath outDir (basename photo))) =
      some (motionPrimary inj pb vb ++ vb) ∧
    (∀ (inj' : Injector) (fs' : FS),
      ((GenMotionPhoto.gen_motion_photo inj' photo video outDir tmp fs').2).dirs =
        outDir :: fs'.dirs) := by
  have hm := gen_motion_photo_run inj photo video outDir tmp fs pb vb hp hv hok
    houtM hvt hvoM
  exact ⟨hm.1, hm.2.1, fun inj' fs' => gen_motion_photo_dirs inj' photo video outDir tmp fs'⟩

/-- **C9 witness**: the concrete run writes its container to
`/out/p.jpg = "/out" ⧺ basename "/in/p.jpg"` and creates `/out`. -/
theorem c9_motion_output_location_witness :
    (GenMotionPhoto.gen_motion_photo injW "/in/p.jpg" "/in/v.mp4" "/out" "/t" wfs).1 =
      .ok () :=
  (c9_motion_output_location injW "/in/p.jpg" "/in/v.mp4" "/out" "/t" wfs
    [0xff, 0xd8, 1] [7, 8, 9, 10, 11] (by decide) (by decide) injW_ok
    (by decide) (by decide) (by decide)).1

set_option maxHeartbeats 1000000 in
/-- **C4**: if the external injector exits non-zero at any point (first or
second pass) the whole invocation fails with the propagated
`CalledProcessError`, and the filesystem's files are exactly as before the
call: in particular the original input image is untouched, because injection
only ever mutated the copy inside the scoped temporary directory, which is
discarded on the failure path.  Shown for the two pipelines cited (motion
and gain-map); `hfr` is the freshness `tempfile.mkdtemp` guarantees. -/
theorem c4_injector_failure_nondestructive (inj : Injector)
    (photo video sdr gm outDir outU tmp : String) (params : HdrParams)
    (fs : FS) (pb vb sb gb : Bytes)
    (hp : fs.read photo = some pb) (hv : fs.read video = some vb)
    (hs : fs.read sdr = some sb) (hg : fs.read gm = some gb)
    (hsj : sb.take 2 = [0xff, 0xd8]) (hgj : gb.take 2 = [0xff, 0xd8])
    (hfr : ∀ e ∈ fs.files, inDir tmp e.1 = false)
    (hfM : ¬ ((inj pb (strBytes (GenMotionPhoto.create_xmp_file pb.length
        vb.length))).exitCode = 0 ∧
      (inj (inj pb (strBytes (GenMotionPhoto.create_xmp_file pb.length
          vb.length))).newContent
        (strBytes (GenMotionPhoto.create_xmp_file
          (inj pb (strBytes (GenMotionPhoto.create_xmp_file pb.length
            vb.length))).newContent.length vb.length))).exitCode = 0))
    (hfU : ¬ ((inj sb (strBytes (GenUltraHDRPhoto.create_ultrahdr_xmp 0
        gb.length params))).exitCode = 0 ∧
      (inj (inj sb (strBytes (GenUltraHDRPhoto.create_ultrahdr_xmp 0
          gb.length params))).newContent
        (strBytes (GenUltraHDRPhoto.create_ultrahdr_xmp
          (inj sb (strBytes (GenUltraHDRPhoto.create_ultrahdr_xmp 0
            gb.length params))).newContent.length gb.length params))).exitCode = 0)) :
    (∃ m, (GenMotionPhoto.gen_motion_photo inj photo video outDir tmp fs).1 =
      .error (.calledProcessError m)) ∧
    (GenMotionPhoto.gen_motion_photo inj photo video outDir tmp fs).2.files = fs.files ∧
    (∃ m, (GenUltraHDRPhoto.gen_ultra_hdr inj sdr gm outU params tmp fs).1 =
      .error (.calledProcessError m)) ∧
    (GenUltraHDRPhoto.gen_ultra_hdr inj sdr gm outU params tmp fs).2.files = fs.files := by
  have htpM : inDir tmp (joinPath tmp "temp_image.jpg") = true := inDir_joinPath _ _
  have hxpM : inDir tmp (joinPath tmp "motion.xmp") = true := inDir_joinPath _ _
  have h1M : joinPath tmp "temp_image.jpg" ≠ joinPath tmp "motion.xmp" :=
    joinPath_ne_of_ne (by decide)
  have h2M : joinPath tmp "motion.xmp" ≠ joinPath tmp "temp_image.jpg" := h1M.symm
  have htpU : inDir tmp (joinPath tmp "hdr_base.jpg") = true := inDir_joinPath _ _
  have hxpU : inDir tmp (joinPath tmp "ultrahdr.xmp") = true := inDir_joinPath _ _
  have h1U : joinPath tmp "hdr_base.jpg" ≠ joinPath tmp "ultrahdr.xmp" :=
    joinPath_ne_of_ne (by decide)
  have h2U : joinPath tmp "ultrahdr.xmp" ≠ joinPath tmp "hdr_base.jpg" := h1U.symm
  have hMot : (∃ m, (GenMotionPhoto.gen_motion_photo inj photo video outDir tmp fs).1 =
      .error (.calledProcessError m)) ∧
      (GenMotionPhoto.gen_motion_photo inj photo video outDir tmp fs).2.files =
        fs.files := by
    by_cases he1 : (inj pb (strBytes (GenMotionPhoto.create_xmp_file pb.length
        vb.length))).exitCode = 0
    · have he2 := fun hb => hfM ⟨he1, hb⟩
      constructor
      · refine ⟨(inj (inj pb (strBytes (GenMotionPhoto.create_xmp_file pb.length
            vb.length))).newContent
          (strBytes (GenMotionPhoto.create_xmp_file
            (inj pb (strBytes (GenMotionPhoto.create_xmp_file pb.length
              vb.length))).newContent.length vb.length))).errText, ?_⟩
        simp [GenMotionPhoto.gen_motion_photo, GenMotionPhoto.apply_metadata, abspath,
          FS.read_write, FS.read_mkdirs, hp, hv, he1, eq_false he2, h1M, h2M]
      · simp only [GenMotionPhoto.gen_motion_photo, GenMotionPhoto.apply_metadata, abspath,
          FS.read_write, FS.read_mkdirs, hp, hv, he1, he2, h1M, h2M,
          if_pos, if_neg, ite_true, ite_false]
        simp [he1, eq_false he2, h1M, h2M, FS.read_write,
          FS.files_removeTree_write _ _ _ _ hxpM, FS.files_removeTree_write _ _ _ _ htpM,
          FS.files_removeTree_eq_self (fs.mkdirs outDir) tmp hfr]
    · constructor
      · refine ⟨(inj pb (strBytes (GenMotionPhoto.create_xmp_file pb.length
            vb.length))).errText, ?_⟩
        simp [GenMotionPhoto.gen_motion_photo, GenMotionPhoto.apply_metadata, abspath,
          FS.read_write, FS.read_mkdirs, hp, hv, he1, h1M, h2M]
      · simp [GenMotionPhoto.gen_motion_photo, GenMotionPhoto.apply_metadata, abspath,
          FS.read_write, FS.read_mkdirs, hp, hv, he1, h1M, h2M,
          FS.files_removeTree_write _ _ _ _ hxpM, FS.files_removeTree_write _ _ _ _ htpM,
          FS.files_removeTree_eq_self (fs.mkdirs outDir) tmp hfr]
  have hUlt : (∃ m, (GenUltraHDRPhoto.gen_ultra_hdr inj sdr gm outU params tmp fs).1 =
      .error (.calledProcessError m)) ∧
      (GenUltraHDRPhoto.gen_ultra_hdr inj sdr gm outU params tmp fs).2.files =
        fs.files := by
    by_cases he1 : (inj sb (strBytes (GenUltraHDRPhoto.create_ultrahdr_xmp 0
        gb.length params))).exitCode = 0
    · have he2 := fun hb => hfU ⟨he1, hb⟩
      constructor
      · refine ⟨(inj (inj sb (strBytes (GenUltraHDRPhoto.create_ultrahdr_xmp 0
            gb.length params))).newContent
          (strBytes (GenUltraHDRPhoto.create_ultrahdr_xmp
            (inj sb (strBytes (GenUltraHDRPhoto.create_ultrahdr_xmp 0
              gb.length params))).newContent.length gb.length params))).errText, ?_⟩
        simp [GenUltraHDRPhoto.gen_ultra_hdr, GenUltraHDRPhoto.apply_ultrahdr_metadata,
          abspath, FS.read_write, FS.read_mkdirs, hs, hg, hsj, hgj, he1, eq_false he2, h1U, h2U]
      · simp [GenUltraHDRPhoto.gen_ultra_hdr, GenUltraHDRPhoto.apply_ultrahdr_metadata,
          abspath, FS.read_write, FS.read_mkdirs, hs, hg, hsj, hgj, he1, eq_false he2, h1U, h2U,
          FS.files_removeTree_write _ _ _ _ hxpU, FS.files_removeTree_write _ _ _ _ htpU,
          FS.files_removeTree_eq_self _ _ hfr]
    · constructor
      · refine ⟨(inj sb (strBytes (GenUltraHDRPhoto.create_ultrahdr_xmp 0
            gb.length params))).errText, ?_⟩
        simp [GenUltraHDRPhoto.gen_ultra_hdr, GenUltraHDRPhoto.apply_ultrahdr_metadata,
          abspath, FS.read_write, FS.read_mkdirs, hs, hg, hsj, hgj, he1, h1U, h2U]
      · simp [GenUltraHDRPhoto.gen_ultra_hdr, GenUltraHDRPhoto.apply_ultrahdr_metadata,
          abspath, FS.read_write, FS.read_mkdirs, hs, hg, hsj, hgj, he1, h1U, h2U,
          FS.files_removeTree_write _ _ _ _ hxpU, FS.files_removeTree_write _ _ _ _ htpU,
          FS.files_removeTree_eq_self _ _ hfr]
  exact ⟨hMot.1, hMot.2, hUlt.1, hUlt.2⟩

/-- **C4 witness**: with the always-failing injector `injFail`, the motion
pipeline leaves the files of the concrete input filesystem untouched. -/
theorem c4_injector_failure_nondestructive_witness :
    (GenMotionPhoto.gen_motion_photo injFail "/in/p.jpg" "/in/v.mp4" "/out" "/t"
      wfs).2.files = wfs.files :=
  (c4_injector_failure_nondestructive injFail "/in/p.jpg" "/in/v.mp4" "/in/s.jpg"
    "/in/g.jpg" "/out" "/out/u.jpg" "/t" ⟨none, none, none, none, none⟩ wfs
    [0xff, 0xd8, 1] [7, 8, 9, 10, 11] [0xff, 0xd8, 2] [0xff, 0xd8, 3, 4]
    (by decide) (by decide) (by decide) (by decide) (by decide) (by decide)
    (by decide) (by decide) (by decide)).2.1

set_option maxHeartbeats 1000000 in
/-- **C5** (amended): a missing or invalid input — any of them, in any
pipeline — fails the invocation before metadata injection begins (for any
injector), with no file created or modified, so the output path is never
created.  The explicit pre-flight checks are: the video existence check in
the motion pipeline and the existence-plus-JPEG-magic loop (SDR first, then
gain map) in the gain-map pipeline; the photo (motion) and all three inputs
of the combined pipeline are validated only implicitly, by the initial size
queries and the temporary copy.  The motion pipeline, however, creates the
output directory *before* its validation, so a directory creation does
precede the failure there (see the counterexample); its files are still
untouched.  The nine conjuncts cover, in order: motion with a missing video
and with a missing photo; the gain-map pipeline with a missing SDR, a
non-JPEG SDR, a missing gain map and a non-JPEG gain map; the combined
pipeline with a missing gain map, a missing video and a missing SDR.
`hfr` is the freshness `tempfile.mkdtemp` guarantees, needed for the two
scenarios that fail at the temporary copy after the tmp dir exists. -/
theorem c5_missing_input_fails_before_injection (inj : Injector)
    (photo video sdr sdr2 gm gm2 outDir outU outC tmp pmiss : String)
    (params : HdrParams) (fs : FS) (vb sb gb s2b g2b : Bytes)
    (hmiss : fs.read pmiss = none)
    (hv : fs.read video = some vb)
    (hs : fs.read sdr = some sb) (hsj : sb.take 2 = [0xff, 0xd8])
    (hg : fs.read gm = some gb)
    (hs2 : fs.read sdr2 = some s2b) (hs2bad : ¬ s2b.take 2 = [0xff, 0xd8])
    (hg2 : fs.read gm2 = some g2b) (hg2bad : ¬ g2b.take 2 = [0xff, 0xd8])
    (hfr : ∀ e ∈ fs.files, inDir tmp e.1 = false) :
    ((GenMotionPhoto.gen_motion_photo inj photo pmiss outDir tmp fs).1 =
        .error (.fileNotFound pmiss) ∧
      (GenMotionPhoto.gen_motion_photo inj photo pmiss outDir tmp fs).2.files =
        fs.files ∧
      (GenMotionPhoto.gen_motion_photo inj photo pmiss outDir tmp fs).2.dirs =
        outDir :: fs.dirs) ∧
    ((GenMotionPhoto.gen_motion_photo inj pmiss video outDir tmp fs).1 =
        .error (.fileNotFound pmiss) ∧
      (GenMotionPhoto.gen_motion_photo inj pmiss video outDir tmp fs).2.files =
        fs.files ∧
      (GenMotionPhoto.gen_motion_photo inj pmiss video outDir tmp fs).2.dirs =
        outDir :: fs.dirs) ∧
    ((GenUltraHDRPhoto.gen_ultra_hdr inj pmiss gm outU params tmp fs).1 =
        .error (.fileNotFound pmiss) ∧
      (GenUltraHDRPhoto.gen_ultra_hdr inj pmiss gm outU params tmp fs).2 = fs) ∧
    ((GenUltraHDRPhoto.gen_ultra_hdr inj sdr2 gm outU params tmp fs).1 =
        .error (.valueError sdr2) ∧
      (GenUltraHDRPhoto.gen_ultra_hdr inj sdr2 gm outU params tmp fs).2 = fs) ∧
    ((GenUltraHDRPhoto.gen_ultra_hdr inj sdr pmiss outU params tmp fs).1 =
        .error (.fileNotFound pmiss) ∧
      (GenUltraHDRPhoto.gen_ultra_hdr inj sdr pmiss outU params tmp fs).2 = fs) ∧
    ((GenUltraHDRPhoto.gen_ultra_hdr inj sdr gm2 outU params tmp fs).1 =
        .error (.valueError gm2) ∧
      (GenUltraHDRPhoto.gen_ultra_hdr inj sdr gm2 outU params tmp fs).2 = fs) ∧
    ((GenUltraHdrMotionPhoto.gen_hdr_motion_photo inj sdr pmiss video outC params tmp
        fs).1 = .error (.fileNotFound pmiss) ∧
      (GenUltraHdrMotionPhoto.gen_hdr_motion_photo inj sdr pmiss video outC params tmp
        fs).2 = fs) ∧
    ((GenUltraHdrMotionPhoto.gen_hdr_motion_photo inj sdr gm pmiss outC params tmp
        fs).1 = .error (.fileNotFound pmiss) ∧
      (GenUltraHdrMotionPhoto.gen_hdr_motion_photo inj sdr gm pmiss outC params tmp
        fs).2 = fs) ∧
    ((GenUltraHdrMotionPhoto.gen_hdr_motion_photo inj pmiss gm video outC params tmp
        fs).1 = .error (.fileNotFound pmiss) ∧
      (GenUltraHdrMotionPhoto.gen_hdr_motion_photo inj pmiss gm video outC params tmp
        fs).2.files = fs.files ∧
      (GenUltraHdrMotionPhoto.gen_hdr_motion_photo inj pmiss gm video outC params tmp
        fs).2.dirs = fs.dirs) := by
  refine ⟨⟨?_, ?_, ?_⟩, ⟨?_, ?_, ?_⟩, ⟨?_, ?_⟩, ⟨?_, ?_⟩, ⟨?_, ?_⟩, ⟨?_, ?_⟩,
    ⟨?_, ?_⟩, ⟨?_, ?_⟩, ⟨?_, ?_, ?_⟩⟩
  all_goals
    simp [GenMotionPhoto.gen_motion_photo, GenUltraHDRPhoto.gen_ultra_hdr,
      GenUltraHdrMotionPhoto.gen_hdr_motion_photo, abspath, FS.read_mkdirs,
      hmiss, hv, hs, hsj, hg, hs2, hs2bad, hg2, hg2bad,
      FS.files_removeTree_eq_self (fs.mkdirs outDir) tmp hfr,
      FS.files_removeTree_eq_self fs tmp hfr]

/-- **C5 counterexample**: the claim as stated says a missing input makes the
pipeline fail *before any write occurs*.  The motion pipeline calls
`os.makedirs(output_dir)` before checking that the video exists: on a
missing video the invocation fails, yet a fresh output directory has been
created. -/
theorem c5_output_dir_created_before_validation :
    (GenMotionPhoto.gen_motion_photo injW "/in/p.jpg" "/in/missing.mp4" "/out" "/t"
        ⟨[("/in/p.jpg", [0xff, 0xd8, 1])], []⟩).1 =
      .error (.fileNotFound "/in/missing.mp4") ∧
    (GenMotionPhoto.gen_motion_photo injW "/in/p.jpg" "/in/missing.mp4" "/out" "/t"
        ⟨[("/in/p.jpg", [0xff, 0xd8, 1])], []⟩).2.dirs = ["/out"] ∧
    (⟨[("/in/p.jpg", [0xff, 0xd8, 1])], []⟩ : FS).dirs = [] :=
  ⟨rfl, rfl, rfl⟩

/-- **C5 witness**: a concrete missing-photo run of the motion pipeline
(the implicit, copy-time validation case) leaves the files untouched. -/
theorem c5_missing_input_fails_before_injection_witness :
    (GenMotionPhoto.gen_motion_photo injW "/in/missing.jpg" "/in/v.mp4" "/out" "/t"
      wfs).2.files = wfs.files :=
  (c5_missing_input_fails_before_injection injW "/in/p.jpg" "/in/v.mp4" "/in/s.jpg"
    "/in/v.mp4" "/in/g.jpg" "/in/v.mp4" "/out" "/out/u.jpg" "/out/c.jpg" "/t"
    "/in/missing.jpg" ⟨none, none, none, none, none⟩ wfs
    [7, 8, 9, 10, 11] [0xff, 0xd8, 2] [0xff, 0xd8, 3, 4]
    [7, 8, 9, 10, 11] [7, 8, 9, 10, 11]
    (by decide) (by decide) (by decide) (by decide) (by decide) (by decide)
    (by decide) (by decide) (by decide) (by decide)).2.1.2.1

/-- **C10** (amended): provided the output location is distinct from every
input path (and inputs do not live inside the scoped temporary directory),
no pipeline ever writes to an input file: whatever the injector does and
whatever the outcome — success or any failure — the photo, SDR, gain-map and
video input files are byte-identical to their state before the call.
Without the distinctness proviso the claim fails: the caller can alias the
output path to an input path, and the pipeline then overwrites that input
(see the counterexample). -/
theorem c10_inputs_never_written (inj : Injector)
    (photo video sdr gm outDir outU outC tmp : String) (params : HdrParams) (fs : FS)
    (houtM : inDir tmp (joinPath outDir (basename photo)) = false)
    (houtU : inDir tmp outU = false) (houtC : inDir tmp outC = false)
    (hpt : inDir tmp photo = false) (hvt : inDir tmp video = false)
    (hst : inDir tmp sdr = false) (hgt : inDir tmp gm = false)
    (hpoM : photo ≠ joinPath outDir (basename photo))
    (hvoM : video ≠ joinPath outDir (basename photo))
    (hsoU : sdr ≠ outU) (hgoU : gm ≠ outU)
    (hsoC : sdr ≠ outC) (hgoC : gm ≠ outC) (hvoC : video ≠ outC) :
    (GenMotionPhoto.gen_motion_photo inj photo video outDir tmp fs).2.read photo =
      fs.read photo ∧
    (GenMotionPhoto.gen_motion_photo inj photo video outDir tmp fs).2.read video =
      fs.read video ∧
    (GenUltraHDRPhoto.gen_ultra_hdr inj sdr gm outU params tmp fs).2.read sdr =
      fs.read sdr ∧
    (GenUltraHDRPhoto.gen_ultra_hdr inj sdr gm outU params tmp fs).2.read gm =
      fs.read gm ∧
    (GenUltraHdrMotionPhoto.gen_hdr_motion_photo inj sdr gm video outC params tmp
        fs).2.read sdr = fs.read sdr ∧
    (GenUltraHdrMotionPhoto.gen_hdr_motion_photo inj sdr gm video outC params tmp
        fs).2.read gm = fs.read gm ∧
    (GenUltraHdrMotionPhoto.gen_hdr_motion_photo inj sdr gm video outC params tmp
        fs).2.read video = fs.read video :=
  ⟨gen_motion_photo_frame inj photo video outDir tmp fs photo hpoM hpt houtM,
   gen_motion_photo_frame inj photo video outDir tmp fs video hvoM hvt houtM,
   gen_ultra_hdr_frame inj sdr gm outU tmp params fs sdr hsoU hst houtU,
   gen_ultra_hdr_frame inj sdr gm outU tmp params fs gm hgoU hgt houtU,
   gen_hdr_motion_photo_frame inj sdr gm video outC tmp params fs sdr hsoC hst houtC,
   gen_hdr_motion_photo_frame inj sdr gm video outC tmp params fs gm hgoC hgt houtC,
   gen_hdr_motion_photo_frame inj sdr gm video outC tmp params fs video hvoC hvt houtC⟩

/-- **C10 counterexample**: the claim as stated promises that on success as
well as failure every input file is byte-identical to before the call.
Aliasing the output path to the SDR input path refutes it: the gain-map
pipeline succeeds and the SDR input file's bytes are replaced by the
assembled container. -/
theorem c10_output_aliasing_clobbers_input :
    (GenUltraHDRPhoto.gen_ultra_hdr injW "/in/s.jpg" "/in/g.jpg" "/in/s.jpg"
        ⟨none, none, none, none, none⟩ "/t" wfs).1 = .ok () ∧
    (GenUltraHDRPhoto.gen_ultra_hdr injW "/in/s.jpg" "/in/g.jpg" "/in/s.jpg"
        ⟨none, none, none, none, none⟩ "/t" wfs).2.read "/in/s.jpg" ≠
      wfs.read "/in/s.jpg" := by
  exact ⟨rfl, by decide⟩

/-- **C10 witness**: with distinct output locations, the concrete runs leave
every input file untouched. -/
theorem c10_inputs_never_written_witness :
    (GenUltraHDRPhoto.gen_ultra_hdr injW "/in/s.jpg" "/in/g.jpg" "/out/u.jpg"
        ⟨none, none, none, none, none⟩ "/t" wfs).2.read "/in/s.jpg" =
      wfs.read "/in/s.jpg" :=
  (c10_inputs_never_written injW "/in/p.jpg" "/in/v.mp4" "/in/s.jpg" "/in/g.jpg"
    "/out" "/out/u.jpg" "/out/c.jpg" "/t" ⟨none, none, none, none, none⟩ wfs
    (by decide) (by decide) (by decide) (by decide) (by decide) (by decide)
    (by decide) (by decide) (by decide) (by decide) (by decide) (by decide)
    (by decide) (by decide)).2.2.1
